import Mathlib

/-!
# Verification of the Soulpher-Engine specification against its source

Shallow embedding of the algorithmic parts of the Soulpher-Engine repository
(a Direct3D 11 teaching engine) in Lean 4, together with theorems settling
the specification claims about:

* the planar shadow-projection matrix built in `Actor::renderShadow`
  (`src/ECS/Actor.cpp`) and its composition with the actor world transform
  built by `Transform::update` (`src/ECS/Transform.cpp`);
* the initialization sequencing and texture-fallback chains of
  `BaseApp::init` (`src/BaseApp.cpp`);
* the orbit-camera clamping in `BaseApp::update` (`src/BaseApp.cpp`);
* `Texture::init` precondition handling and the extension-type switch
  (`src/Texture.cpp`, `include/Prerequisites.h`);
* the OBJ loader face parsing (`GenVerticesFromRawOBJ`) and ear-clipping
  triangulation (`VertexTriangluation`) in `include/OBJ_Loader.h`.

Machine floats are modelled by exact rationals: every property proved here
is an algebraic/structural property of the code that does not depend on
rounding.  Matrices follow the row-major `XMMATRIX` layout of DirectXMath.
Rotation angles are represented by their (cosine, sine) pair, which is what
the source feeds into the rotation-matrix constructors.
-/

namespace SoulpherEngine

/-! ## 4x4 matrices (DirectXMath `XMMATRIX`, row-major storage) -/

/-- A 4x4 rational matrix, stored row-major exactly like `XMMATRIX`:
`mIJ` is row `I`, column `J`, matching the sixteen-argument `XMMATRIX`
constructor used in `Actor::renderShadow`. -/
structure M4 where
  m00 : ℚ
  m01 : ℚ
  m02 : ℚ
  m03 : ℚ
  m10 : ℚ
  m11 : ℚ
  m12 : ℚ
  m13 : ℚ
  m20 : ℚ
  m21 : ℚ
  m22 : ℚ
  m23 : ℚ
  m30 : ℚ
  m31 : ℚ
  m32 : ℚ
  m33 : ℚ
  deriving DecidableEq, Repr

/-- A homogeneous 4-vector. -/
structure V4 where
  x : ℚ
  y : ℚ
  z : ℚ
  w : ℚ
  deriving DecidableEq, Repr

/-- Matrix product `a * b` (row-major, as for `XMMATRIX operator*`). -/
def M4.mul (a b : M4) : M4 where
  m00 := a.m00 * b.m00 + a.m01 * b.m10 + a.m02 * b.m20 + a.m03 * b.m30
  m01 := a.m00 * b.m01 + a.m01 * b.m11 + a.m02 * b.m21 + a.m03 * b.m31
  m02 := a.m00 * b.m02 + a.m01 * b.m12 + a.m02 * b.m22 + a.m03 * b.m32
  m03 := a.m00 * b.m03 + a.m01 * b.m13 + a.m02 * b.m23 + a.m03 * b.m33
  m10 := a.m10 * b.m00 + a.m11 * b.m10 + a.m12 * b.m20 + a.m13 * b.m30
  m11 := a.m10 * b.m01 + a.m11 * b.m11 + a.m12 * b.m21 + a.m13 * b.m31
  m12 := a.m10 * b.m02 + a.m11 * b.m12 + a.m12 * b.m22 + a.m13 * b.m32
  m13 := a.m10 * b.m03 + a.m11 * b.m13 + a.m12 * b.m23 + a.m13 * b.m33
  m20 := a.m20 * b.m00 + a.m21 * b.m10 + a.m22 * b.m20 + a.m23 * b.m30
  m21 := a.m20 * b.m01 + a.m21 * b.m11 + a.m22 * b.m21 + a.m23 * b.m31
  m22 := a.m20 * b.m02 + a.m21 * b.m12 + a.m22 * b.m22 + a.m23 * b.m32
  m23 := a.m20 * b.m03 + a.m21 * b.m13 + a.m22 * b.m23 + a.m23 * b.m33
  m30 := a.m30 * b.m00 + a.m31 * b.m10 + a.m32 * b.m20 + a.m33 * b.m30
  m31 := a.m30 * b.m01 + a.m31 * b.m11 + a.m32 * b.m21 + a.m33 * b.m31
  m32 := a.m30 * b.m02 + a.m31 * b.m12 + a.m32 * b.m22 + a.m33 * b.m32
  m33 := a.m30 * b.m03 + a.m31 * b.m13 + a.m32 * b.m23 + a.m33 * b.m33

/-- `XMMatrixTranspose`. -/
def M4.transpose (a : M4) : M4 where
  m00 := a.m00
  m01 := a.m10
  m02 := a.m20
  m03 := a.m30
  m10 := a.m01
  m11 := a.m11
  m12 := a.m21
  m13 := a.m31
  m20 := a.m02
  m21 := a.m12
  m22 := a.m22
  m23 := a.m32
  m30 := a.m03
  m31 := a.m13
  m32 := a.m23
  m33 := a.m33

/-- Apply a matrix to a row vector: `v * M`, the DirectXMath convention
under which the engine consumes every matrix (component `j` is the dot
product of `v` with column `j`).  This is the convention pinned by the
compositions `worldYaw * S` in `Actor::renderShadow` and
`scale * rotation * translation` in `Transform::update`, by
`XMMatrixTranslation` carrying the translation in the last row, and by the
HLSL `mul(v, World)` consumption of the transposed upload. -/
def M4.applyRow (v : V4) (m : M4) : V4 where
  x := v.x * m.m00 + v.y * m.m10 + v.z * m.m20 + v.w * m.m30
  y := v.x * m.m01 + v.y * m.m11 + v.z * m.m21 + v.w * m.m31
  z := v.x * m.m02 + v.y * m.m12 + v.z * m.m22 + v.w * m.m32
  w := v.x * m.m03 + v.y * m.m13 + v.z * m.m23 + v.w * m.m33

/-! ## The shadow-projection matrix of `Actor::renderShadow`

Source (`src/ECS/Actor.cpp`, lines 190-198):
```
float Lx = m_LightPos.x, Ly = m_LightPos.y, Lz = m_LightPos.z;
float invLy = 1.0f / Ly;
XMMATRIX S = XMMATRIX(
    1.0f, -Lx * invLy, 0.0f, 0.0f,
    0.0f, 0.0f, 0.0f, 0.0f,
    0.0f, -Lz * invLy, 1.0f, 0.0f,
    0.0f, 0.0f, 0.0f, 1.0f);
```
-/

/-- The planar shadow-projection matrix `S` built in `Actor::renderShadow`
from the light position `(Lx, Ly, Lz)`, entry for entry in the row-major
order of the sixteen-argument `XMMATRIX` constructor. -/
def shadowMatrix (Lx Ly Lz : ℚ) : M4 where
  m00 := 1
  m01 := -Lx * (1 / Ly)
  m02 := 0
  m03 := 0
  m10 := 0
  m11 := 0
  m12 := 0
  m13 := 0
  m20 := 0
  m21 := -Lz * (1 / Ly)
  m22 := 1
  m23 := 0
  m30 := 0
  m31 := 0
  m32 := 0
  m33 := 1

/-! ## Orbit-camera state transition of `BaseApp::update`

Source (`src/BaseApp.cpp`, camera-controls block): the pitch is modified
only while the right mouse button is held (and the UI does not capture the
mouse), and is clamped with `std::clamp(m_camPitchDeg, -89.0f, 89.0f)`
immediately after the modification; the distance is modified only on a
non-zero wheel delta and clamped with `std::clamp(m_camDistance, 2.0f,
50.0f)` immediately after.  The middle-button pan modifies only the camera
target, never yaw/pitch/distance.  Initial values (from `BaseApp.h`):
`m_camYawDeg = 0`, `m_camPitchDeg = 15`, `m_camDistance = 10`. -/

/-- `std::clamp(v, lo, hi)`: `v < lo ? lo : hi < v ? hi : v`. -/
def stdClamp (v lo hi : ℚ) : ℚ :=
  if v < lo then lo else if hi < v then hi else v

/-- The orbit-camera fields of `BaseApp` that the camera-controls block of
`BaseApp::update` reads and writes (the pan target is tracked separately and
never feeds back into these three). -/
structure CamState where
  yawDeg : ℚ
  pitchDeg : ℚ
  distance : ℚ
  deriving DecidableEq, Repr

/-- The per-frame mouse input consumed by the camera-controls block:
whether ImGui captures the mouse, whether the right button is held, the
cursor deltas, and the wheel delta. -/
structure CamInput where
  uiCaptureMouse : Bool
  rmbDown : Bool
  dx : ℚ
  dy : ℚ
  wheel : ℚ
  deriving DecidableEq, Repr

/-- Initial camera state from the `BaseApp.h` member initializers. -/
def camInit : CamState :=
  { yawDeg := 0, pitchDeg := 15, distance := 10 }

/-- The ORBIT (RMB) branch of the camera block: adds `dx * 0.25` to yaw,
subtracts `dy * 0.25` from pitch and immediately clamps the pitch to
`[-89, 89]`.  Skipped when the right button is up. -/
def camOrbit (st : CamState) (inp : CamInput) : CamState :=
  if inp.rmbDown then
    { st with
      yawDeg := st.yawDeg + inp.dx * (1 / 4)
      pitchDeg := stdClamp (st.pitchDeg - inp.dy * (1 / 4)) (-89) 89 }
  else st

/-- The ZOOM (wheel) branch of the camera block: a non-zero wheel delta
multiplies the distance by `0.9` (wheel up) or `1.1` (wheel down) and
immediately clamps it to `[2, 50]`. -/
def camZoom (st : CamState) (inp : CamInput) : CamState :=
  if inp.wheel ≠ 0 then
    { st with
      distance :=
        stdClamp (st.distance * (if 0 < inp.wheel then 9 / 10 else 11 / 10)) 2 50 }
  else st

/-- The camera-controls block of `BaseApp::update` restricted to the
yaw/pitch/distance fields, in source order: orbit, then zoom (the
middle-button pan only moves `m_camTarget`).  The whole block is skipped
when ImGui captures the mouse. -/
def camUpdate (st : CamState) (inp : CamInput) : CamState :=
  if inp.uiCaptureMouse then st else camZoom (camOrbit st inp) inp

/-- The camera invariant claimed by the spec: pitch in `[-89, 89]` degrees
and distance in `[2, 50]`. -/
def camInvariant (st : CamState) : Prop :=
  -89 ≤ st.pitchDeg ∧ st.pitchDeg ≤ 89 ∧ 2 ≤ st.distance ∧ st.distance ≤ 50

instance (st : CamState) : Decidable (camInvariant st) := by
  unfold camInvariant; infer_instance

/-! ## HRESULT model

`HRESULT` is a signed 32-bit status code; `FAILED(hr)` is `hr < 0`.  The
constants below are the two's-complement signed values of the Windows
codes used by the engine. -/

/-- `S_OK`. -/
def S_OK : ℤ := 0

/-- `E_FAIL` (`0x80004005` as a signed 32-bit integer). -/
def E_FAIL : ℤ := -2147467259

/-- `E_POINTER` (`0x80004003` as a signed 32-bit integer). -/
def E_POINTER : ℤ := -2147467261

/-- `E_INVALIDARG` (`0x80070057` as a signed 32-bit integer). -/
def E_INVALIDARG : ℤ := -2147024809

/-- The `FAILED(hr)` macro: a negative signed status code. -/
def hrFailed (hr : ℤ) : Bool := hr < 0

/-! ## `Texture::init(device, name, extensionType)` (`src/Texture.cpp`)

The function:
1. returns `E_POINTER` when the device pointer is null;
2. returns `E_INVALIDARG` when the texture name is empty;
3. releases the previously stored `m_textureFromImg` / `m_texture`;
4. switches on the extension type:
   * `DDS`: appends `".dds"` and calls
     `D3DX11CreateShaderResourceViewFromFileA`;
   * `PNG`: appends `".png"`, decodes with `stbi_load`, creates an
     `ID3D11Texture2D` and then a shader-resource view, releasing the
     staging texture;
   * any other value (in particular `JPG`) hits the `default:` label and
     returns `E_INVALIDARG` ("Unsupported extension type") without
     attempting any file access.

Native resources are modelled by the asset filename they were created
from; the native calls' outcomes are an oracle (`TexWorld`). -/

/-- `ExtensionType` from `include/Prerequisites.h`. -/
inductive ExtensionType
  | DDS
  | PNG
  | JPG
  deriving DecidableEq, Repr

/-- The stored state of a `Texture` object: the shader-resource view
`m_textureFromImg`, the staging texture `m_texture` (each modelled by the
filename backing it), and `m_textureName`. -/
structure TextureState where
  textureFromImg : Option String
  texture : Option String
  textureName : String
  deriving DecidableEq, Repr

/-- A default-constructed `Texture` (all members null/empty). -/
def texDefault : TextureState :=
  { textureFromImg := none, texture := none, textureName := "" }

/-- Oracle for the native calls made by `Texture::init`, indexed by the
full filename: result of `D3DX11CreateShaderResourceViewFromFileA`,
success of `stbi_load`, and results of `CreateTexture2D` /
`CreateShaderResourceView` for the decoded PNG data. -/
structure TexWorld where
  ddsLoadHr : String → ℤ
  stbiOk : String → Bool
  createTex2DHr : String → ℤ
  createSrvHr : String → ℤ

/-- The native calls `Texture::init` can attempt, in order. -/
inductive TexCall
  | ddsLoad (fname : String)
  | stbiLoad (fname : String)
  | createTex2D (fname : String)
  | createSrv (fname : String)
  deriving DecidableEq, Repr

/-- `Texture::init(device, textureName, extensionType)`: returns the
`HRESULT`, the new object state, and the list of native load calls
attempted. -/
def texInit (w : TexWorld) (deviceNull : Bool) (textureName : String)
    (ext : ExtensionType) (st : TextureState) :
    ℤ × TextureState × List TexCall :=
  if deviceNull then (E_POINTER, st, [])
  else if textureName = "" then (E_INVALIDARG, st, [])
  else
    -- "Asegúrate de partir sin recursos previos": release both members.
    let st0 : TextureState := { st with textureFromImg := none, texture := none }
    match ext with
    | .DDS =>
      let fname := textureName ++ ".dds"
      let st1 := { st0 with textureName := fname }
      let hr := w.ddsLoadHr fname
      if hrFailed hr then (hr, st1, [.ddsLoad fname])
      else (hr, { st1 with textureFromImg := some fname }, [.ddsLoad fname])
    | .PNG =>
      let fname := textureName ++ ".png"
      let st1 := { st0 with textureName := fname }
      if !(w.stbiOk fname) then (E_FAIL, st1, [.stbiLoad fname])
      else
        let hr1 := w.createTex2DHr fname
        if hrFailed hr1 then (hr1, st1, [.stbiLoad fname, .createTex2D fname])
        else
          let hr2 := w.createSrvHr fname
          -- the staging `m_texture` is released right after the SRV call
          (hr2,
            { st1 with
              texture := none
              textureFromImg := if hrFailed hr2 then none else some fname },
            [.stbiLoad fname, .createTex2D fname, .createSrv fname])
    | .JPG => (E_INVALIDARG, st0, [])

/-! ## `BaseApp::init` sequencing (`src/BaseApp.cpp`)

The initialization sequence, with each native call's outcome drawn from an
oracle (`InitWorld`).  Steps whose failure aborts `init` with an early
return: swap chain, render-target view, depth-stencil texture and view,
viewport, shader program, both camera constant buffers, the two actor
allocations and the FBX load.  Steps whose failure only logs: the
vertex/index-buffer creations inside `Actor::setMesh` and every
`Texture::init` call of the two fallback chains.  `UserInterface::init`
returns `void` and is never checked. -/

/-- Primary diffuse texture path for the Martis actor. -/
def kMartisTexPrimary : String := "ModelsFBX\\martis-ashura-king\\Martis\\axl_D"

/-- Alternate diffuse texture path for the Martis actor. -/
def kMartisTexAlt : String := "ModelsFBX\\martis-ashura-king\\Martis\\axl_wq_D"

/-- Default fallback texture asset. -/
def kDefaultTex : String := "Textures\\Default"

/-- Ground-plane texture path. -/
def kPlaneTex : String := "ModelsFBX\\martis-ashura-king\\Martis\\piedra"

/-- Observable events of `BaseApp::init`, in execution order. -/
inductive InitStep
  | swapChain (hr : ℤ)
  | renderTargetView (hr : ℤ)
  | depthStencilTex (hr : ℤ)
  | depthStencilView (hr : ℤ)
  | viewport (hr : ℤ)
  | shaderProgram (hr : ℤ)
  | cbNeverChanges (hr : ℤ)
  | cbChangeOnResize (hr : ℤ)
  | cameraMatrices
  | martisAlloc (ok : Bool)
  | fbxLoad (ok : Bool)
  | bufferCreate (hr : ℤ)
  | texAttempt (name : String) (ext : ExtensionType) (hr : ℤ)
  | logNoDiffuseTexture
  | planeAlloc (ok : Bool)
  | lightSetup
  | uiInit
  deriving DecidableEq, Repr

/-- `Actor::setMesh`: one vertex-buffer and one index-buffer creation per
mesh; failures are logged (`ERROR(...)`) and skipped, never propagated. -/
def setMeshSteps (bufHrs : List (ℤ × ℤ)) : List InitStep :=
  bufHrs.flatMap fun p => [.bufferCreate p.1, .bufferCreate p.2]

/-- Result of one `Texture::init` call made by `BaseApp::init` (a fresh
default-constructed `Texture` each time, on a non-null device with a
non-empty name). -/
def texAttemptHr (w : TexWorld) (name : String) (ext : ExtensionType) : ℤ :=
  (texInit w false name ext texDefault).1

/-- The Martis diffuse-texture fallback chain of `BaseApp::init`:
primary PNG, on failure alternate PNG, on failure `Textures\Default` DDS
then PNG (short-circuit `||`), and only if all four fail the
`"No diffuse texture found for Martis."` error log.  Returns the steps
performed and whether a texture was obtained. -/
def martisTexChain (w : TexWorld) : List InitStep × Bool :=
  let hr1 := texAttemptHr w kMartisTexPrimary .PNG
  let s1 := [InitStep.texAttempt kMartisTexPrimary .PNG hr1]
  if !hrFailed hr1 then (s1, true)
  else
    let hr2 := texAttemptHr w kMartisTexAlt .PNG
    let s2 := s1 ++ [InitStep.texAttempt kMartisTexAlt .PNG hr2]
    if !hrFailed hr2 then (s2, true)
    else
      let hr3 := texAttemptHr w kDefaultTex .DDS
      let s3 := s2 ++ [InitStep.texAttempt kDefaultTex .DDS hr3]
      if !hrFailed hr3 then (s3, true)
      else
        let hr4 := texAttemptHr w kDefaultTex .PNG
        let s4 := s3 ++ [InitStep.texAttempt kDefaultTex .PNG hr4]
        if !hrFailed hr4 then (s4, true)
        else (s4 ++ [InitStep.logNoDiffuseTexture], false)

/-- The ground-plane texture fallback chain of `BaseApp::init`:
`piedra` JPG, on failure `piedra` PNG, on failure `Textures\Default` DDS,
on failure `Textures\Default` PNG (final result discarded, nothing
logged). -/
def planeTexChain (w : TexWorld) : List InitStep :=
  let hr1 := texAttemptHr w kPlaneTex .JPG
  let s1 := [InitStep.texAttempt kPlaneTex .JPG hr1]
  if !hrFailed hr1 then s1
  else
    let hr2 := texAttemptHr w kPlaneTex .PNG
    let s2 := s1 ++ [InitStep.texAttempt kPlaneTex .PNG hr2]
    if !hrFailed hr2 then s2
    else
      let hr3 := texAttemptHr w kDefaultTex .DDS
      let s3 := s2 ++ [InitStep.texAttempt kDefaultTex .DDS hr3]
      if !hrFailed hr3 then s3
      else
        let hr4 := texAttemptHr w kDefaultTex .PNG
        s3 ++ [InitStep.texAttempt kDefaultTex .PNG hr4]

/-- Oracle for every fallible call of `BaseApp::init`. -/
structure InitWorld where
  swapChainHr : ℤ
  rtvHr : ℤ
  depthTexHr : ℤ
  dsvHr : ℤ
  viewportHr : ℤ
  shaderProgramHr : ℤ
  cbNeverHr : ℤ
  cbResizeHr : ℤ
  martisAllocOk : Bool
  fbxLoadOk : Bool
  fbxMeshesEmpty : Bool
  martisBufHrs : List (ℤ × ℤ)
  planeAllocOk : Bool
  planeBufHrs : List (ℤ × ℤ)
  tex : TexWorld

/-- Scene portion of `BaseApp::init` (steps 9-12): Martis actor, ground
plane, light, ImGui. -/
def baseAppInitScene (w : InitWorld) (tr : List InitStep) : ℤ × List InitStep :=
  let t9 := tr ++ [InitStep.martisAlloc w.martisAllocOk]
  if !w.martisAllocOk then (E_FAIL, t9)
  else
    let fbxOk := w.fbxLoadOk && !w.fbxMeshesEmpty
    let t10 := t9 ++ [InitStep.fbxLoad fbxOk]
    if !fbxOk then (E_FAIL, t10)
    else
      let t11 := t10 ++ setMeshSteps w.martisBufHrs ++ (martisTexChain w.tex).1
      let t12 := t11 ++ [InitStep.planeAlloc w.planeAllocOk]
      if !w.planeAllocOk then (E_FAIL, t12)
      else
        let t13 := t12 ++ setMeshSteps w.planeBufHrs ++ planeTexChain w.tex
        (S_OK, t13 ++ [InitStep.lightSetup, InitStep.uiInit])

/-- `BaseApp::init`: the returned `HRESULT` and the ordered trace of
performed steps.  Each early return happens immediately after the failed
step, exactly as in the source. -/
def baseAppInit (w : InitWorld) : ℤ × List InitStep :=
  let t1 := [InitStep.swapChain w.swapChainHr]
  if hrFailed w.swapChainHr then (w.swapChainHr, t1)
  else
    let t2 := t1 ++ [InitStep.renderTargetView w.rtvHr]
    if hrFailed w.rtvHr then (w.rtvHr, t2)
    else
      let t3 := t2 ++ [InitStep.depthStencilTex w.depthTexHr]
      if hrFailed w.depthTexHr then (w.depthTexHr, t3)
      else
        let t4 := t3 ++ [InitStep.depthStencilView w.dsvHr]
        if hrFailed w.dsvHr then (w.dsvHr, t4)
        else
          let t5 := t4 ++ [InitStep.viewport w.viewportHr]
          if hrFailed w.viewportHr then (w.viewportHr, t5)
          else
            let t6 := t5 ++ [InitStep.shaderProgram w.shaderProgramHr]
            if hrFailed w.shaderProgramHr then (w.shaderProgramHr, t6)
            else
              let t7 := t6 ++ [InitStep.cbNeverChanges w.cbNeverHr]
              if hrFailed w.cbNeverHr then (w.cbNeverHr, t7)
              else
                let t8 := t7 ++ [InitStep.cbChangeOnResize w.cbResizeHr]
                if hrFailed w.cbResizeHr then (w.cbResizeHr, t8)
                else
                  baseAppInitScene w
                    (t8 ++ [InitStep.cameraMatrices])

/-! ## OBJ loader (`include/OBJ_Loader.h`)

Vectors over exact rationals; `operator==` on `Vector3` compares the three
components, exactly as in the header. -/

/-- `objl::Vector2`. -/
structure Vector2 where
  X : ℚ
  Y : ℚ
  deriving DecidableEq, Repr, Inhabited

/-- `objl::Vector3`.  The derived `Inhabited` default is `(0, 0, 0)`, the
value of the default constructor. -/
structure Vector3 where
  X : ℚ
  Y : ℚ
  Z : ℚ
  deriving DecidableEq, Repr, Inhabited

/-- `objl::Vertex` (position, normal, texture coordinate), default
constructed to all zeros. -/
structure Vertex where
  Position : Vector3
  Normal : Vector3
  TextureCoordinate : Vector2
  deriving DecidableEq, Repr, Inhabited

/-- `Vector3::operator-`. -/
def v3sub (a b : Vector3) : Vector3 :=
  ⟨a.X - b.X, a.Y - b.Y, a.Z - b.Z⟩

/-- `math::CrossV3`. -/
def CrossV3 (a b : Vector3) : Vector3 :=
  ⟨a.Y * b.Z - a.Z * b.Y, a.Z * b.X - a.X * b.Z, a.X * b.Y - a.Y * b.X⟩

/-- `math::DotV3`. -/
def DotV3 (a b : Vector3) : ℚ :=
  a.X * b.X + a.Y * b.Y + a.Z * b.Z

/-- `algorithm::SameSide(p1, p2, a, b)`: the cross products of `b - a`
with `p1 - a` and `p2 - a` have non-negative dot product. -/
def SameSide (p1 p2 a b : Vector3) : Bool :=
  decide (0 ≤ DotV3 (CrossV3 (v3sub b a) (v3sub p1 a))
      (CrossV3 (v3sub b a) (v3sub p2 a)))

/-- `algorithm::GenTriNormal`: cross product of the two edge vectors. -/
def GenTriNormal (t1 t2 t3 : Vector3) : Vector3 :=
  CrossV3 (v3sub t2 t1) (v3sub t3 t1)

/-- The final test of `algorithm::inTriangle`:
`MagnitudeV3(ProjV3(point, n)) == 0` where `n` is the triangle normal.
In exact arithmetic `|proj(point, n)| = |DotV3 point n| / |n|`, which is
zero iff `DotV3 point n = 0` when `n ≠ 0`; when `n = 0` the float code
divides by zero, the magnitude is NaN, and `NaN == 0` is false. -/
def projOntoNormalIsZero (point n : Vector3) : Bool :=
  if n = ⟨0, 0, 0⟩ then false else decide (DotV3 point n = 0)

/-- `algorithm::inTriangle`: the three `SameSide` prism tests, then the
plane test on the projection onto the triangle normal. -/
def inTriangle (point tri1 tri2 tri3 : Vector3) : Bool :=
  if SameSide point tri1 tri2 tri3 && SameSide point tri2 tri1 tri3 &&
      SameSide point tri3 tri1 tri2 then
    projOntoNormalIsZero point (GenTriNormal tri1 tri2 tri3)
  else false

/-! ### String helpers of `namespace algorithm`

Strings are modelled as `List Char`.  `cppSubstr` is
`std::string::substr` (clamped at the end of the string). -/

/-- `std::string::substr(pos, len)`. -/
def cppSubstr (s : List Char) (pos len : ℕ) : List Char :=
  (s.drop pos).take len

/-- Membership in the character set `" \t"`. -/
def isBlankChar (c : Char) : Bool := c = ' ' || c = '\t'

/-- `find_first_not_of(" \t", from)`: smallest index `i ≥ from` holding a
non-blank character, if any. -/
def findFirstNotOf (s : List Char) (start : ℕ) : Option ℕ :=
  (List.range s.length).find? fun i =>
    decide (start ≤ i) && !isBlankChar (s.getD i ' ')

/-- `find_first_of(" \t", from)`: smallest index `i ≥ from` holding a
blank character, if any. -/
def findFirstOf (s : List Char) (start : ℕ) : Option ℕ :=
  (List.range s.length).find? fun i =>
    decide (start ≤ i) && isBlankChar (s.getD i ' ')

/-- `find_last_not_of(" \t")`: largest index holding a non-blank
character, if any. -/
def findLastNotOf (s : List Char) : Option ℕ :=
  (List.range s.length).reverse.find? fun i => !isBlankChar (s.getD i ' ')

/-- `algorithm::tail`: everything from the first non-blank character after
the first token, trimmed of trailing blanks; `""` when the line has no
second token. -/
def tailStr (s : List Char) : List Char :=
  match findFirstNotOf s 0 with
  | none => []
  | some tokenStart =>
    match findFirstOf s tokenStart with
    | none => []
    | some spaceStart =>
      match findFirstNotOf s spaceStart with
      | none => []
      | some tailStart =>
        match findLastNotOf s with
        | none => []
        | some tailEnd => cppSubstr s tailStart (tailEnd - tailStart + 1)

/-- `algorithm::firstToken`: the first blank-delimited token of the line. -/
def firstTokenStr (s : List Char) : List Char :=
  if s = [] then []
  else
    match findFirstNotOf s 0 with
    | none => []
    | some tokenStart =>
      match findFirstOf s tokenStart with
      | some tokenEnd => cppSubstr s tokenStart (tokenEnd - tokenStart)
      | none => s.drop tokenStart

/-- Loop body of `algorithm::split`, indexed by the scan position `i`; the
`fuel` argument bounds the iteration count (each iteration advances `i` by
at least one for a non-empty token, so `|in| + 1` suffices). -/
def splitGo (sIn tok : List Char) : ℕ → ℕ → List Char → List (List Char) →
    List (List Char)
  | 0, _, _, acc => acc
  | fuel + 1, i, temp, acc =>
    if i < sIn.length then
      let test := cppSubstr sIn i tok.length
      if test = tok then
        if temp ≠ [] then
          -- push temp, clear it, and skip the token (`i += token.size()-1`
          -- plus the loop increment)
          splitGo sIn tok fuel (i + tok.length) [] (acc ++ [temp])
        else splitGo sIn tok fuel (i + 1) temp (acc ++ [[]])
      else if sIn.length ≤ i + tok.length then
        -- last chunk: append the remaining characters and stop
        acc ++ [temp ++ cppSubstr sIn i tok.length]
      else splitGo sIn tok fuel (i + 1) (temp ++ [sIn.getD i ' ']) acc
    else acc

/-- `algorithm::split(in, out, token)`: the resulting `out` vector. -/
def splitStr (sIn tok : List Char) : List (List Char) :=
  splitGo sIn tok (sIn.length + 1) 0 [] []

/-- `std::stoi`: optional blanks, optional sign, then decimal digits. -/
def stoiStr (s : List Char) : ℤ :=
  let s1 := s.dropWhile isBlankChar
  let digitsVal : List Char → ℤ := fun t =>
    ((t.takeWhile Char.isDigit).foldl (fun a c => a * 10 + (c.toNat - 48)) 0 : ℕ)
  match s1 with
  | '-' :: rest => -(digitsVal rest)
  | '+' :: rest => digitsVal rest
  | _ => digitsVal s1

/-- `algorithm::getElement(elements, index)`: OBJ 1-based indexing, with
negative indices counting from the end.  Out-of-range accesses (undefined
behaviour in C++) yield the type's default value. -/
def getElement {α : Type} [Inhabited α] (elements : List α) (index : List Char) : α :=
  let idx := stoiStr index
  let idx2 := if idx < 0 then (elements.length : ℤ) + idx else idx - 1
  elements.getD idx2.toNat default

/-! ### `Loader::GenVerticesFromRawOBJ`

The fold state carries the output vertices, the shared `vVert` temporary
(whose `Normal` persists across iterations, as in the source where
`vVert` is declared outside the loop), and the `noNormal` flag.  The
C++ `vtype` is set only for 1, 2 or 3 slashes-separated fields; any other
field count leaves `vtype` with an indeterminate value and (for values
outside 1..4) falls into the no-op `default:` branch, modelled as a
no-op. -/

/-- One iteration of the face-vertex loop of `GenVerticesFromRawOBJ`. -/
def genVertexStep (iPositions : List Vector3) (iTCoords : List Vector2)
    (iNormals : List Vector3) (st : List Vertex × Vertex × Bool)
    (f : List Char) : List Vertex × Vertex × Bool :=
  let (oVerts, vVert, noNormal) := st
  let svert := splitStr f ['/']
  if svert.length = 1 then
    -- vtype 1: only position
    let v := { vVert with
      Position := getElement iPositions (svert.getD 0 [])
      TextureCoordinate := ⟨0, 0⟩ }
    (oVerts ++ [v], v, true)
  else if svert.length = 2 then
    -- vtype 2: position and texture
    let v := { vVert with
      Position := getElement iPositions (svert.getD 0 [])
      TextureCoordinate := getElement iTCoords (svert.getD 1 []) }
    (oVerts ++ [v], v, true)
  else if svert.length = 3 then
    if svert.getD 1 [] ≠ [] then
      -- vtype 4: position, texture and normal
      let v : Vertex :=
        { Position := getElement iPositions (svert.getD 0 [])
          Normal := getElement iNormals (svert.getD 2 [])
          TextureCoordinate := getElement iTCoords (svert.getD 1 []) }
      (oVerts ++ [v], v, noNormal)
    else
      -- vtype 3: position and normal
      let v := { vVert with
        Position := getElement iPositions (svert.getD 0 [])
        TextureCoordinate := (⟨0, 0⟩ : Vector2)
        Normal := getElement iNormals (svert.getD 2 []) }
      (oVerts ++ [v], v, noNormal)
  else (oVerts, vVert, noNormal)

/-- `Loader::GenVerticesFromRawOBJ(oVerts, positions, tcoords, normals,
curline)`: returns the produced vertices together with the `noNormal`
flag, i.e. whether the missing-normal synthesis branch ran (in which case
every vertex's normal is the cross product
`CrossV3(P0 - P1, P2 - P1)` of the first three positions). -/
def GenVerticesFromRawOBJ (iPositions : List Vector3) (iTCoords : List Vector2)
    (iNormals : List Vector3) (icurline : List Char) : List Vertex × Bool :=
  let sface := splitStr (tailStr icurline) [' ']
  let r := sface.foldl (genVertexStep iPositions iTCoords iNormals)
    ([], default, false)
  let oVerts := r.1
  let noNormal := r.2.2
  if noNormal then
    let A := v3sub (oVerts.getD 0 default).Position (oVerts.getD 1 default).Position
    let B := v3sub (oVerts.getD 2 default).Position (oVerts.getD 1 default).Position
    let normal := CrossV3 A B
    (oVerts.map fun v => { v with Normal := normal }, true)
  else (oVerts, false)

/-! ### `Loader::VertexTriangluation` (ear clipping)

The interior-angle rejection of the source,
`if (angle <= 0 && angle >= 180) continue;`, can never fire: no value
satisfies both comparisons at once (`angleRejects_always_false` /
`no_real_is_nonpositive_and_geq_180` below; IEEE NaN compares false on
both).  The embedding therefore treats every vertex as passing the angle
test and keeps only the live in-triangle test. -/

/-- The dead interior-angle rejection predicate, exactly as written in the
source (`angle <= 0 && angle >= 180`). -/
def angleRejects (angle : ℚ) : Bool :=
  decide (angle ≤ 0) && decide (180 ≤ angle)

/-- `pPrev` for vertex `i` of the working list. -/
def earPrev (tVerts : List Vertex) (i : ℕ) : Vector3 :=
  (tVerts.getD (if i = 0 then tVerts.length - 1 else i - 1) default).Position

/-- `pCur` for vertex `i` of the working list. -/
def earCur (tVerts : List Vertex) (i : ℕ) : Vector3 :=
  (tVerts.getD i default).Position

/-- `pNext` for vertex `i` of the working list. -/
def earNext (tVerts : List Vertex) (i : ℕ) : Vector3 :=
  (tVerts.getD (if i = tVerts.length - 1 then 0 else i + 1) default).Position

/-- The in-triangle rejection: some vertex of the original polygon,
distinct from the candidate ear's three corners, lies inside the ear
triangle (the `inTri` loop of the source, which scans `iVerts`). -/
def anyInTri (iVerts : List Vertex) (pPrev pCur pNext : Vector3) : Bool :=
  iVerts.any fun w =>
    inTriangle w.Position pPrev pCur pNext &&
      !decide (w.Position = pPrev) && !decide (w.Position = pCur) &&
      !decide (w.Position = pNext)

/-- First index of the working list that passes both ear tests (the angle
test never rejects, see `angleRejects_always_false`). -/
def findEar (iVerts tVerts : List Vertex) : Option ℕ :=
  (List.range tVerts.length).find? fun i =>
    !anyInTri iVerts (earPrev tVerts i) (earCur tVerts i) (earNext tVerts i)

/-- The triangle-emission scan: for each `j` below `n`, push `j` once for
each of `a`, `b`, `c` (in that order) that equals `iVerts[j].Position`. -/
def emitScan (iVerts : List Vertex) (n : ℕ) (a b c : Vector3) : List ℕ :=
  (List.range n).foldl
    (fun acc j =>
      let p := (iVerts.getD j default).Position
      acc ++ (if p = a then [j] else []) ++ (if p = b then [j] else []) ++
        (if p = c then [j] else []))
    []

/-- The `tempVec` scan of the four-vertex case: the first working vertex
whose position differs from all three corners (`tempVec` stays default
constructed, `(0,0,0)`, when none exists). -/
def findTempVec (tVerts : List Vertex) (pCur pPrev pNext : Vector3) : Vector3 :=
  match tVerts.find? fun v =>
      !decide (v.Position = pCur) && !decide (v.Position = pPrev) &&
        !decide (v.Position = pNext) with
  | some v => v.Position
  | none => ⟨0, 0, 0⟩

/-- Deletion of the clipped ear: erase the first working vertex whose
position equals `pCur`. -/
def eraseFirstByPos : List Vertex → Vector3 → List Vertex
  | [], _ => []
  | v :: rest, p => if v.Position = p then rest else v :: eraseFirstByPos rest p

/-- The `while (true)` clipping loop.  One unit of fuel is consumed per
clipped ear; when no ear is found the source either exits (no indices were
ever produced) or loops forever — the embedding returns the accumulated
indices when the fuel runs out, a case none of the theorems below ever
reaches. -/
def triClipLoop : ℕ → List Vertex → List Vertex → List ℕ → List ℕ
  | 0, _, _, acc => acc
  | fuel + 1, iVerts, tVerts, acc =>
    if tVerts.length = 3 then
      -- last triangle; the source scans only `j < tVerts.size()` here
      acc ++ emitScan iVerts 3 (earCur tVerts 0) (earPrev tVerts 0) (earNext tVerts 0)
    else if tVerts.length = 4 then
      let pPrev := earPrev tVerts 0
      let pCur := earCur tVerts 0
      let pNext := earNext tVerts 0
      let tri1 := emitScan iVerts iVerts.length pCur pPrev pNext
      let tempVec := findTempVec tVerts pCur pPrev pNext
      let tri2 := emitScan iVerts iVerts.length pPrev pNext tempVec
      acc ++ tri1 ++ tri2
    else
      match findEar iVerts tVerts with
      | some i =>
        let pPrev := earPrev tVerts i
        let pCur := earCur tVerts i
        let pNext := earNext tVerts i
        triClipLoop fuel iVerts (eraseFirstByPos tVerts pCur)
          (acc ++ emitScan iVerts iVerts.length pCur pPrev pNext)
      | none => acc

/-- `Loader::VertexTriangluation(oIndices, iVerts)`: the indices appended
to `oIndices` (nothing for fewer than three vertices; `[0, 1, 2]` for a
triangle; the clipping loop otherwise). -/
def VertexTriangluation (iVerts : List Vertex) : List ℕ :=
  if iVerts.length < 3 then []
  else if iVerts.length = 3 then [0, 1, 2]
  else triClipLoop iVerts.length iVerts iVerts []

/-- Twice the signed area of the 2-D triangle `p q r` (projected to the
`XY` plane): the orientation test used to reason about convex polygons in
the plane `Z = 0`. -/
def tri2 (p q r : Vector3) : ℚ :=
  (q.X - p.X) * (r.Y - p.Y) - (q.Y - p.Y) * (r.X - p.X)

/-- The vertices of `ps`, in their given cyclic order, are in strictly
convex position with orientation sign `s`: every index-ordered triple has
signed area of sign `s`.  (This is the standard characterization of a
strictly convex polygon with the given vertex order; the plain
"consecutive turns only" condition would also admit star polygons.) -/
def convexSign (s : ℚ) (ps : List Vector3) : Prop :=
  ∀ k, k < ps.length → ∀ j, j < k → ∀ i, i < j →
    0 < s * tri2 (ps.getD i default) (ps.getD j default) (ps.getD k default)

/-- A world in which every native texture-load call succeeds — every
referenced asset file is present and valid. -/
def texWorldAllOk : TexWorld where
  ddsLoadHr := fun _ => 0
  stbiOk := fun _ => true
  createTex2DHr := fun _ => 0
  createSrvHr := fun _ => 0

/-- A world in which every native texture-load call fails (missing or
invalid asset files); everything else succeeds. -/
def texWorldAllFail : TexWorld where
  ddsLoadHr := fun _ => E_FAIL
  stbiOk := fun _ => false
  createTex2DHr := fun _ => 0
  createSrvHr := fun _ => 0

/-- An `InitWorld` where every hard initialization step succeeds but every
texture load fails. -/
def initWorldTexFail : InitWorld where
  swapChainHr := 0
  rtvHr := 0
  depthTexHr := 0
  dsvHr := 0
  viewportHr := 0
  shaderProgramHr := 0
  cbNeverHr := 0
  cbResizeHr := 0
  martisAllocOk := true
  fbxLoadOk := true
  fbxMeshesEmpty := false
  martisBufHrs := [(0, 0)]
  planeAllocOk := true
  planeBufHrs := [(0, 0)]
  tex := texWorldAllFail

/-! ## World transforms: `Transform::update` and `Actor::renderShadow`

DirectXMath matrices in the row-vector convention (`v * M`); rotation
angles are represented by their (cosine, sine) pair, exactly the values
the source's `XMMatrix...` constructors compute from the angle. -/

/-- `XMMatrixScaling`. -/
def XMMatrixScaling (sx sy sz : ℚ) : M4 where
  m00 := sx
  m01 := 0
  m02 := 0
  m03 := 0
  m10 := 0
  m11 := sy
  m12 := 0
  m13 := 0
  m20 := 0
  m21 := 0
  m22 := sz
  m23 := 0
  m30 := 0
  m31 := 0
  m32 := 0
  m33 := 1

/-- `XMMatrixTranslation` (row-vector convention: translation in the last
row). -/
def XMMatrixTranslation (x y z : ℚ) : M4 where
  m00 := 1
  m01 := 0
  m02 := 0
  m03 := 0
  m10 := 0
  m11 := 1
  m12 := 0
  m13 := 0
  m20 := 0
  m21 := 0
  m22 := 1
  m23 := 0
  m30 := x
  m31 := y
  m32 := z
  m33 := 1

/-- `XMMatrixRotationX` at an angle with cosine `c` and sine `s`. -/
def XMMatrixRotationX (c s : ℚ) : M4 where
  m00 := 1
  m01 := 0
  m02 := 0
  m03 := 0
  m10 := 0
  m11 := c
  m12 := s
  m13 := 0
  m20 := 0
  m21 := -s
  m22 := c
  m23 := 0
  m30 := 0
  m31 := 0
  m32 := 0
  m33 := 1

/-- `XMMatrixRotationY` at an angle with cosine `c` and sine `s`. -/
def XMMatrixRotationY (c s : ℚ) : M4 where
  m00 := c
  m01 := 0
  m02 := -s
  m03 := 0
  m10 := 0
  m11 := 1
  m12 := 0
  m13 := 0
  m20 := s
  m21 := 0
  m22 := c
  m23 := 0
  m30 := 0
  m31 := 0
  m32 := 0
  m33 := 1

/-- `XMMatrixRotationZ` at an angle with cosine `c` and sine `s`. -/
def XMMatrixRotationZ (c s : ℚ) : M4 where
  m00 := c
  m01 := s
  m02 := 0
  m03 := 0
  m10 := -s
  m11 := c
  m12 := 0
  m13 := 0
  m20 := 0
  m21 := 0
  m22 := 1
  m23 := 0
  m30 := 0
  m31 := 0
  m32 := 0
  m33 := 1

/-- `XMMatrixRotationRollPitchYaw(pitch, yaw, roll)`: roll (Z) applied
first, then pitch (X), then yaw (Y), in the row-vector convention.  Each
angle is given by its (cosine, sine) pair. -/
def XMMatrixRotationRollPitchYaw (cp sp cy sy cr sr : ℚ) : M4 :=
  ((XMMatrixRotationZ cr sr).mul (XMMatrixRotationX cp sp)).mul
    (XMMatrixRotationY cy sy)

/-- `Transform::update`: `matrix = scaleMatrix * rotationMatrix *
translationMatrix` with the full roll-pitch-yaw rotation built from the
three rotation components. -/
def transformWorldMatrix (posX posY posZ cp sp cy sy cr sr sclX sclY sclZ : ℚ) :
    M4 :=
  ((XMMatrixScaling sclX sclY sclZ).mul
      (XMMatrixRotationRollPitchYaw cp sp cy sy cr sr)).mul
    (XMMatrixTranslation posX posY posZ)

/-- `Actor::renderShadow`, local `worldYaw`: `Mscale * Myaw * Mtrans`,
built from the scale, the yaw component of the rotation only
(`XMMatrixRotationY(yaw)`), and the position. -/
def renderShadowWorldYaw (posX posY posZ cy sy sclX sclY sclZ : ℚ) : M4 :=
  ((XMMatrixScaling sclX sclY sclZ).mul (XMMatrixRotationY cy sy)).mul
    (XMMatrixTranslation posX posY posZ)

/-- The matrix written to the shadow constant buffer by
`Actor::renderShadow`: `XMMatrixTranspose(worldYaw * S)`. -/
def renderShadowUploadMatrix (posX posY posZ cy sy sclX sclY sclZ Lx Ly Lz : ℚ) :
    M4 :=
  ((renderShadowWorldYaw posX posY posZ cy sy sclX sclY sclZ).mul
      (shadowMatrix Lx Ly Lz)).transpose

/-- The mesh color written to the shadow constant buffer:
`XMFLOAT4(0, 0, 0, 0.5f)`. -/
def renderShadowMeshColor : V4 := ⟨0, 0, 0, 1 / 2⟩

/-! ## Theorems: C1 (shadow matrix fixes the ground plane) and C5 (camera clamp) -/

/-- `stdClamp` lands in `[lo, hi]` whenever `lo ≤ hi`. -/
lemma stdClamp_mem (v lo hi : ℚ) (h : lo ≤ hi) :
    lo ≤ stdClamp v lo hi ∧ stdClamp v lo hi ≤ hi := by
  unfold stdClamp
  split_ifs with h1 h2 <;> constructor <;> linarith

/-- C1 (code bug).  Under the engine's own row-vector convention — the one
its pipeline actually uses (see `M4.applyRow`) — the shadow matrix `S`
built in `Actor::renderShadow` does NOT fix the ground plane `y = 0`:

* at the engine's light `m_LightPos = (2, 4, -2)` (so `Ly = 4 > 0`) it
  maps the ground-plane point `(3, 0, 7, 1)` to `(3, 2, 7, 1)`;
* in general it sends `(x, 0, z, 1)` to
  `(x, -(x*Lx + z*Lz)/Ly, z, 1)`, flattening geometry onto the plane
  `Lx*x + Ly*y + Lz*z = 0` through the origin instead of onto `y = 0`;
* the claimed fixed-point property holds exactly for the TRANSPOSE of the
  built matrix, for every light and every ground-plane point.

So the matrix literal is the classic column-vector planar projector
transcribed into a row-vector pipeline — transposed relative to the
convention it is used under — and the documented intent of
`renderShadow` ("Renderiza la sombra proyectada del actor en el suelo",
project the shadow onto the floor) is not what the code computes. -/
theorem shadowMatrix_row_convention_bug :
    M4.applyRow ⟨3, 0, 7, 1⟩ (shadowMatrix 2 4 (-2)) = ⟨3, 2, 7, 1⟩ ∧
      (⟨3, 2, 7, 1⟩ : V4) ≠ ⟨3, 0, 7, 1⟩ ∧
      (∀ Lx Ly Lz x z : ℚ,
        M4.applyRow ⟨x, 0, z, 1⟩ (shadowMatrix Lx Ly Lz) =
          ⟨x, -(x * Lx + z * Lz) * (1 / Ly), z, 1⟩) ∧
      ∀ Lx Ly Lz x z : ℚ,
        M4.applyRow ⟨x, 0, z, 1⟩ (shadowMatrix Lx Ly Lz).transpose =
          ⟨x, 0, z, 1⟩ := by
  refine ⟨?_, ?_, ?_, ?_⟩
  · simp only [M4.applyRow, shadowMatrix]
    rw [V4.mk.injEq]
    norm_num
  · intro h
    rw [V4.mk.injEq] at h
    norm_num at h
  · intro Lx Ly Lz x z
    simp only [M4.applyRow, shadowMatrix]
    rw [V4.mk.injEq]
    refine ⟨by ring, by ring, by ring, by ring⟩
  · intro Lx Ly Lz x z
    simp only [M4.applyRow, M4.transpose, shadowMatrix]
    rw [V4.mk.injEq]
    refine ⟨by ring, by ring, by ring, by ring⟩

/-- C5.  The initial camera state satisfies the pitch/distance bounds, and
one step of the camera-controls block of `BaseApp::update` preserves them
for every possible mouse input: afterwards the pitch is always in
`[-89, 89]` degrees and the distance in `[2, 50]`. -/
theorem camUpdate_preserves_invariant :
    camInvariant camInit ∧
      ∀ (st : CamState) (inp : CamInput),
        camInvariant st → camInvariant (camUpdate st inp) := by
  refine ⟨by norm_num [camInit, camInvariant], ?_⟩
  intro st inp hst
  obtain ⟨h1, h2, h3, h4⟩ := hst
  have hp := stdClamp_mem (st.pitchDeg - inp.dy * (1 / 4)) (-89) 89 (by norm_num)
  have hd1 := stdClamp_mem
    ((camOrbit st inp).distance * (if 0 < inp.wheel then 9 / 10 else 11 / 10)) 2 50
    (by norm_num)
  unfold camUpdate camZoom camOrbit at *
  split_ifs at * <;> simp_all [camInvariant]

/-- Witness for C5: a concrete update from the initial state with a large
downward drag and a wheel click stays inside the bounds. -/
theorem camUpdate_preserves_invariant_witness :
    camInvariant camInit ∧
      camInvariant
        (camUpdate camInit
          { uiCaptureMouse := false, rmbDown := true, dx := 1000, dy := 1000,
            wheel := -3 }) :=
  ⟨camUpdate_preserves_invariant.1,
    camUpdate_preserves_invariant.2 camInit _ camUpdate_preserves_invariant.1⟩

/-- With zero pitch and zero roll (cosine `1`, sine `0`),
`XMMatrixRotationRollPitchYaw` reduces to the pure yaw rotation that
`Actor::renderShadow` rebuilds. -/
lemma rollPitchYaw_zero_pitch_roll (cy sy : ℚ) :
    XMMatrixRotationRollPitchYaw 1 0 cy sy 1 0 = XMMatrixRotationY cy sy := by
  simp only [XMMatrixRotationRollPitchYaw, XMMatrixRotationZ,
    XMMatrixRotationX, XMMatrixRotationY, M4.mul]
  rw [M4.mk.injEq]
  norm_num

/-- C9.  `Texture::init` returns `E_POINTER` on a null device and
`E_INVALIDARG` on an empty texture name; both precondition checks return
before any load is attempted (empty attempt list) and leave the stored
resources and name unchanged (the state is returned exactly as it was). -/
theorem texInit_precondition_atomic :
    (∀ (w : TexWorld) (name : String) (ext : ExtensionType) (st : TextureState),
        texInit w true name ext st = (E_POINTER, st, [])) ∧
      ∀ (w : TexWorld) (ext : ExtensionType) (st : TextureState),
        texInit w false "" ext st = (E_INVALIDARG, st, []) :=
  ⟨fun _ _ _ _ => rfl, fun _ _ _ => rfl⟩

/-- Counterexample to C8 as stated: even in a world where every native
load call would succeed (a valid asset file), `Texture::init` with
extension type `JPG` hits the `default:` label of the switch and returns
`E_INVALIDARG` — a failed `HRESULT` — without attempting a single load.
The failure is caused by the extension type alone. -/
theorem texInit_jpg_always_fails :
    (texInit texWorldAllOk false kPlaneTex .JPG texDefault).1 = E_INVALIDARG ∧
      (texInit texWorldAllOk false kPlaneTex .JPG texDefault).2.2 = [] ∧
      hrFailed E_INVALIDARG = true :=
  ⟨rfl, rfl, rfl⟩

/-- C8 (amended).  `Texture::init` loads DDS and PNG assets when the
respective native calls succeed, but the `JPG` enum value is not handled
by the switch: it always returns `E_INVALIDARG` through the `default:`
branch, for every name and world, attempting no load. -/
theorem texInit_extension_behaviour (w : TexWorld) (name : String)
    (st : TextureState) (hname : name ≠ "") :
    (hrFailed (w.ddsLoadHr (name ++ ".dds")) = false →
        texInit w false name .DDS st =
          (w.ddsLoadHr (name ++ ".dds"),
            { textureFromImg := some (name ++ ".dds"), texture := none,
              textureName := name ++ ".dds" },
            [.ddsLoad (name ++ ".dds")])) ∧
      (w.stbiOk (name ++ ".png") = true →
        hrFailed (w.createTex2DHr (name ++ ".png")) = false →
        hrFailed (w.createSrvHr (name ++ ".png")) = false →
        texInit w false name .PNG st =
          (w.createSrvHr (name ++ ".png"),
            { textureFromImg := some (name ++ ".png"), texture := none,
              textureName := name ++ ".png" },
            [.stbiLoad (name ++ ".png"), .createTex2D (name ++ ".png"),
              .createSrv (name ++ ".png")])) ∧
      texInit w false name .JPG st =
        (E_INVALIDARG, { st with textureFromImg := none, texture := none }, []) := by
  refine ⟨fun h1 => ?_, fun h1 h2 h3 => ?_, ?_⟩
  · simp [texInit, hname, h1]
  · simp [texInit, hname, h1, h2, h3]
  · simp [texInit, hname]

/-- Witness for C8's amended theorem at a concrete world and name. -/
theorem texInit_extension_behaviour_witness :
    ("Textures\\Default" ≠ "" ∧
        hrFailed (texWorldAllOk.ddsLoadHr "Textures\\Default.dds") = false) ∧
      texInit texWorldAllOk false "Textures\\Default" .DDS texDefault =
        (0,
          { textureFromImg := some "Textures\\Default.dds", texture := none,
            textureName := "Textures\\Default.dds" },
          [.ddsLoad "Textures\\Default.dds"]) :=
  ⟨⟨by decide, rfl⟩,
    (texInit_extension_behaviour texWorldAllOk "Textures\\Default" texDefault
        (by decide)).1 rfl⟩

/-- C10.  For any input polygon with fewer than three vertices,
`VertexTriangluation` returns immediately and appends nothing to the
output index vector. -/
theorem vertexTriangluation_lt3 (iVerts : List Vertex) (h : iVerts.length < 3) :
    VertexTriangluation iVerts = [] := by
  unfold VertexTriangluation
  rw [if_pos h]

/-- Witness for C10 on a concrete two-vertex input. -/
theorem vertexTriangluation_lt3_witness :
    ([(default : Vertex), default].length < 3) ∧
      VertexTriangluation [(default : Vertex), default] = [] :=
  ⟨by decide, vertexTriangluation_lt3 [default, default] (by decide)⟩

/-- Counterexample to C7 as stated: with position `(0,0,0)`, scale
`(1,1,1)`, rotation pitch `90°` (cosine `0`, sine `1`), yaw and roll `0`,
and the engine light `(2,4,-2)`, the matrix `renderShadow` uploads differs
from the actor's `Transform`-computed world matrix composed with `S`
(whether or not the customary upload transpose is applied): `renderShadow`
rebuilds the world with the yaw component only and drops the pitch. -/
theorem renderShadow_upload_matrix_counterexample :
    renderShadowUploadMatrix 0 0 0 1 0 1 1 1 2 4 (-2) ≠
        ((transformWorldMatrix 0 0 0 0 1 1 0 1 0 1 1 1).mul
            (shadowMatrix 2 4 (-2))).transpose ∧
      renderShadowUploadMatrix 0 0 0 1 0 1 1 1 2 4 (-2) ≠
        (transformWorldMatrix 0 0 0 0 1 1 0 1 0 1 1 1).mul
          (shadowMatrix 2 4 (-2)) := by
  refine ⟨fun h => ?_, fun h => ?_⟩ <;>
  · have h12 := congrArg M4.m12 h
    norm_num [renderShadowUploadMatrix, renderShadowWorldYaw,
      transformWorldMatrix, XMMatrixRotationRollPitchYaw, XMMatrixRotationZ,
      XMMatrixRotationX, XMMatrixRotationY, XMMatrixScaling,
      XMMatrixTranslation, shadowMatrix, M4.mul, M4.transpose] at h12

/-- C7 (amended).  The matrix `Actor::renderShadow` uploads to the shadow
constant buffer is the transpose (the engine's upload convention, also
used for the opaque pass in `Actor::update`) of `worldYaw * S`, where
`worldYaw` is rebuilt from the actor's position, scale and the yaw
component of its rotation only; it therefore equals the transposed
composition of the `Transform`-computed world matrix with `S` exactly when
pitch and roll are zero (cosine `1`, sine `0`).  The uploaded mesh color
is flat translucent black `(0, 0, 0, 0.5)`. -/
theorem renderShadow_upload_matrix (posX posY posZ cy sy sclX sclY sclZ
    Lx Ly Lz : ℚ) :
    renderShadowUploadMatrix posX posY posZ cy sy sclX sclY sclZ Lx Ly Lz =
        ((transformWorldMatrix posX posY posZ 1 0 cy sy 1 0 sclX sclY sclZ).mul
            (shadowMatrix Lx Ly Lz)).transpose ∧
      renderShadowMeshColor = ⟨0, 0, 0, 1 / 2⟩ := by
  refine ⟨?_, rfl⟩
  unfold renderShadowUploadMatrix renderShadowWorldYaw transformWorldMatrix
  rw [rollPitchYaw_zero_pitch_roll]

/-- Counterexample to C2 as stated: in a world where every hard
initialization call succeeds but every texture file is missing, the
underlying call for the primary-texture step fails (`E_FAIL` appears in
the trace as a failed attempt), yet `init` does not return early with that
code: it continues through the remaining steps (the ImGui step is still
executed) and returns `S_OK`. -/
theorem baseAppInit_soft_failure_counterexample :
    (baseAppInit initWorldTexFail).1 = S_OK ∧
      InitStep.texAttempt kMartisTexPrimary .PNG E_FAIL ∈
        (baseAppInit initWorldTexFail).2 ∧
      hrFailed E_FAIL = true ∧
      InitStep.uiInit ∈ (baseAppInit initWorldTexFail).2 := by
  refine ⟨rfl, ?_, rfl, ?_⟩ <;> decide

/-- C2 (amended).  Every hard step of `BaseApp::init` — swap chain,
render-target view, depth-stencil texture and view, viewport, shader
program, both camera constant buffers, the two actor allocations and the
FBX load — aborts `init` immediately on failure, returning that step's
error code (`E_FAIL` for the allocation/load checks) with no further step
performed; when all hard steps succeed `init` returns `S_OK` regardless of
the outcomes of the soft steps (texture loads and mesh-buffer
creations). -/
theorem baseAppInit_hard_steps_abort (w : InitWorld) :
    (hrFailed w.swapChainHr = true →
      baseAppInit w = (w.swapChainHr, [.swapChain w.swapChainHr])) ∧
    (hrFailed w.swapChainHr = false → hrFailed w.rtvHr = true →
      baseAppInit w =
        (w.rtvHr, [.swapChain w.swapChainHr, .renderTargetView w.rtvHr])) ∧
    (hrFailed w.swapChainHr = false → hrFailed w.rtvHr = false →
      hrFailed w.depthTexHr = true →
      baseAppInit w =
        (w.depthTexHr, [.swapChain w.swapChainHr, .renderTargetView w.rtvHr,
          .depthStencilTex w.depthTexHr])) ∧
    (hrFailed w.swapChainHr = false → hrFailed w.rtvHr = false →
      hrFailed w.depthTexHr = false → hrFailed w.dsvHr = true →
      baseAppInit w =
        (w.dsvHr, [.swapChain w.swapChainHr, .renderTargetView w.rtvHr,
          .depthStencilTex w.depthTexHr, .depthStencilView w.dsvHr])) ∧
    (hrFailed w.swapChainHr = false → hrFailed w.rtvHr = false →
      hrFailed w.depthTexHr = false → hrFailed w.dsvHr = false →
      hrFailed w.viewportHr = true →
      baseAppInit w =
        (w.viewportHr, [.swapChain w.swapChainHr, .renderTargetView w.rtvHr,
          .depthStencilTex w.depthTexHr, .depthStencilView w.dsvHr,
          .viewport w.viewportHr])) ∧
    (hrFailed w.swapChainHr = false → hrFailed w.rtvHr = false →
      hrFailed w.depthTexHr = false → hrFailed w.dsvHr = false →
      hrFailed w.viewportHr = false → hrFailed w.shaderProgramHr = true →
      baseAppInit w =
        (w.shaderProgramHr, [.swapChain w.swapChainHr,
          .renderTargetView w.rtvHr, .depthStencilTex w.depthTexHr,
          .depthStencilView w.dsvHr, .viewport w.viewportHr,
          .shaderProgram w.shaderProgramHr])) ∧
    (hrFailed w.swapChainHr = false → hrFailed w.rtvHr = false →
      hrFailed w.depthTexHr = false → hrFailed w.dsvHr = false →
      hrFailed w.viewportHr = false → hrFailed w.shaderProgramHr = false →
      hrFailed w.cbNeverHr = true →
      baseAppInit w =
        (w.cbNeverHr, [.swapChain w.swapChainHr, .renderTargetView w.rtvHr,
          .depthStencilTex w.depthTexHr, .depthStencilView w.dsvHr,
          .viewport w.viewportHr, .shaderProgram w.shaderProgramHr,
          .cbNeverChanges w.cbNeverHr])) ∧
    (hrFailed w.swapChainHr = false → hrFailed w.rtvHr = false →
      hrFailed w.depthTexHr = false → hrFailed w.dsvHr = false →
      hrFailed w.viewportHr = false → hrFailed w.shaderProgramHr = false →
      hrFailed w.cbNeverHr = false → hrFailed w.cbResizeHr = true →
      baseAppInit w =
        (w.cbResizeHr, [.swapChain w.swapChainHr, .renderTargetView w.rtvHr,
          .depthStencilTex w.depthTexHr, .depthStencilView w.dsvHr,
          .viewport w.viewportHr, .shaderProgram w.shaderProgramHr,
          .cbNeverChanges w.cbNeverHr, .cbChangeOnResize w.cbResizeHr])) ∧
    (hrFailed w.swapChainHr = false → hrFailed w.rtvHr = false →
      hrFailed w.depthTexHr = false → hrFailed w.dsvHr = false →
      hrFailed w.viewportHr = false → hrFailed w.shaderProgramHr = false →
      hrFailed w.cbNeverHr = false → hrFailed w.cbResizeHr = false →
      w.martisAllocOk = false →
      baseAppInit w =
        (E_FAIL, [.swapChain w.swapChainHr, .renderTargetView w.rtvHr,
          .depthStencilTex w.depthTexHr, .depthStencilView w.dsvHr,
          .viewport w.viewportHr, .shaderProgram w.shaderProgramHr,
          .cbNeverChanges w.cbNeverHr, .cbChangeOnResize w.cbResizeHr,
          .cameraMatrices, .martisAlloc false])) ∧
    (hrFailed w.swapChainHr = false → hrFailed w.rtvHr = false →
      hrFailed w.depthTexHr = false → hrFailed w.dsvHr = false →
      hrFailed w.viewportHr = false → hrFailed w.shaderProgramHr = false →
      hrFailed w.cbNeverHr = false → hrFailed w.cbResizeHr = false →
      w.martisAllocOk = true → (w.fbxLoadOk && !w.fbxMeshesEmpty) = false →
      baseAppInit w =
        (E_FAIL, [.swapChain w.swapChainHr, .renderTargetView w.rtvHr,
          .depthStencilTex w.depthTexHr, .depthStencilView w.dsvHr,
          .viewport w.viewportHr, .shaderProgram w.shaderProgramHr,
          .cbNeverChanges w.cbNeverHr, .cbChangeOnResize w.cbResizeHr,
          .cameraMatrices, .martisAlloc true, .fbxLoad false])) ∧
    (hrFailed w.swapChainHr = false → hrFailed w.rtvHr = false →
      hrFailed w.depthTexHr = false → hrFailed w.dsvHr = false →
      hrFailed w.viewportHr = false → hrFailed w.shaderProgramHr = false →
      hrFailed w.cbNeverHr = false → hrFailed w.cbResizeHr = false →
      w.martisAllocOk = true → (w.fbxLoadOk && !w.fbxMeshesEmpty) = true →
      w.planeAllocOk = false →
      baseAppInit w =
        (E_FAIL, [.swapChain w.swapChainHr, .renderTargetView w.rtvHr,
            .depthStencilTex w.depthTexHr, .depthStencilView w.dsvHr,
            .viewport w.viewportHr, .shaderProgram w.shaderProgramHr,
            .cbNeverChanges w.cbNeverHr, .cbChangeOnResize w.cbResizeHr,
            .cameraMatrices, .martisAlloc true, .fbxLoad true] ++
          setMeshSteps w.martisBufHrs ++ (martisTexChain w.tex).1 ++
          [.planeAlloc false])) ∧
    (hrFailed w.swapChainHr = false → hrFailed w.rtvHr = false →
      hrFailed w.depthTexHr = false → hrFailed w.dsvHr = false →
      hrFailed w.viewportHr = false → hrFailed w.shaderProgramHr = false →
      hrFailed w.cbNeverHr = false → hrFailed w.cbResizeHr = false →
      w.martisAllocOk = true → (w.fbxLoadOk && !w.fbxMeshesEmpty) = true →
      w.planeAllocOk = true → (baseAppInit w).1 = S_OK) := by
  refine ⟨?_, ?_, ?_, ?_, ?_, ?_, ?_, ?_, ?_, ?_, ?_, ?_⟩ <;>
    · intros
      try simp_all [baseAppInit, baseAppInitScene]
      all_goals cases hfb : w.fbxLoadOk <;> cases hfm : w.fbxMeshesEmpty <;>
        simp_all

/-- Witness for C2's amended theorem: concrete world with all hard steps
succeeding and all texture loads failing; the final conjunct yields
`S_OK`. -/
theorem baseAppInit_hard_steps_abort_witness :
    (hrFailed initWorldTexFail.swapChainHr = false ∧
        initWorldTexFail.martisAllocOk = true ∧
        (initWorldTexFail.fbxLoadOk && !initWorldTexFail.fbxMeshesEmpty) = true ∧
        initWorldTexFail.planeAllocOk = true) ∧
      (baseAppInit initWorldTexFail).1 = S_OK :=
  ⟨⟨rfl, rfl, rfl, rfl⟩,
    ((((((((((((baseAppInit_hard_steps_abort initWorldTexFail).2).2).2).2).2).2).2).2).2).2).2)
      rfl rfl rfl rfl rfl rfl rfl rfl rfl rfl rfl⟩

/-- C3.  Both scene-setup texture fallback chains attempt every fallback
before giving up: in the Martis chain a failed primary load is followed by
the alternate-path attempt, then (on failure) the Default asset as DDS,
then as PNG; the "no diffuse texture" error is logged if and only if all
four attempts failed, and then only after all four appear in the trace, in
order.  The ground-plane chain likewise falls back from `piedra` (JPG,
then PNG) to the Default asset (DDS, then PNG) and reports nothing. -/
theorem textureFallbackChains (w : TexWorld) :
    (hrFailed (texAttemptHr w kMartisTexPrimary .PNG) = true →
      InitStep.texAttempt kMartisTexAlt .PNG (texAttemptHr w kMartisTexAlt .PNG) ∈
        (martisTexChain w).1) ∧
    (hrFailed (texAttemptHr w kMartisTexPrimary .PNG) = true →
      hrFailed (texAttemptHr w kMartisTexAlt .PNG) = true →
      InitStep.texAttempt kDefaultTex .DDS (texAttemptHr w kDefaultTex .DDS) ∈
        (martisTexChain w).1) ∧
    (hrFailed (texAttemptHr w kMartisTexPrimary .PNG) = true →
      hrFailed (texAttemptHr w kMartisTexAlt .PNG) = true →
      hrFailed (texAttemptHr w kDefaultTex .DDS) = true →
      InitStep.texAttempt kDefaultTex .PNG (texAttemptHr w kDefaultTex .PNG) ∈
        (martisTexChain w).1) ∧
    (InitStep.logNoDiffuseTexture ∈ (martisTexChain w).1 ↔
      hrFailed (texAttemptHr w kMartisTexPrimary .PNG) = true ∧
        hrFailed (texAttemptHr w kMartisTexAlt .PNG) = true ∧
        hrFailed (texAttemptHr w kDefaultTex .DDS) = true ∧
        hrFailed (texAttemptHr w kDefaultTex .PNG) = true) ∧
    (hrFailed (texAttemptHr w kMartisTexPrimary .PNG) = true →
      hrFailed (texAttemptHr w kMartisTexAlt .PNG) = true →
      hrFailed (texAttemptHr w kDefaultTex .DDS) = true →
      hrFailed (texAttemptHr w kDefaultTex .PNG) = true →
      (martisTexChain w).1 =
        [.texAttempt kMartisTexPrimary .PNG (texAttemptHr w kMartisTexPrimary .PNG),
          .texAttempt kMartisTexAlt .PNG (texAttemptHr w kMartisTexAlt .PNG),
          .texAttempt kDefaultTex .DDS (texAttemptHr w kDefaultTex .DDS),
          .texAttempt kDefaultTex .PNG (texAttemptHr w kDefaultTex .PNG),
          .logNoDiffuseTexture]) ∧
    (hrFailed (texAttemptHr w kPlaneTex .JPG) = true →
      InitStep.texAttempt kPlaneTex .PNG (texAttemptHr w kPlaneTex .PNG) ∈
        planeTexChain w) ∧
    (hrFailed (texAttemptHr w kPlaneTex .JPG) = true →
      hrFailed (texAttemptHr w kPlaneTex .PNG) = true →
      InitStep.texAttempt kDefaultTex .DDS (texAttemptHr w kDefaultTex .DDS) ∈
        planeTexChain w) ∧
    (hrFailed (texAttemptHr w kPlaneTex .JPG) = true →
      hrFailed (texAttemptHr w kPlaneTex .PNG) = true →
      hrFailed (texAttemptHr w kDefaultTex .DDS) = true →
      planeTexChain w =
        [.texAttempt kPlaneTex .JPG (texAttemptHr w kPlaneTex .JPG),
          .texAttempt kPlaneTex .PNG (texAttemptHr w kPlaneTex .PNG),
          .texAttempt kDefaultTex .DDS (texAttemptHr w kDefaultTex .DDS),
          .texAttempt kDefaultTex .PNG (texAttemptHr w kDefaultTex .PNG)]) ∧
    (InitStep.logNoDiffuseTexture ∉ planeTexChain w) := by
  refine ⟨?_, ?_, ?_, ?_, ?_, ?_, ?_, ?_, ?_⟩
  · intro h1
    simp only [martisTexChain, h1, Bool.not_true, if_false, Bool.false_eq_true]
    split_ifs <;> simp
  · intro h1 h2
    simp only [martisTexChain, h1, h2, Bool.not_true, if_false,
      Bool.false_eq_true]
    split_ifs <;> simp
  · intro h1 h2 h3
    simp only [martisTexChain, h1, h2, h3, Bool.not_true, if_false,
      Bool.false_eq_true]
    split_ifs <;> simp
  · constructor
    · intro hmem
      by_cases h1 : hrFailed (texAttemptHr w kMartisTexPrimary .PNG) = true <;>
        by_cases h2 : hrFailed (texAttemptHr w kMartisTexAlt .PNG) = true <;>
        by_cases h3 : hrFailed (texAttemptHr w kDefaultTex .DDS) = true <;>
        by_cases h4 : hrFailed (texAttemptHr w kDefaultTex .PNG) = true <;>
        simp_all [martisTexChain]
    · rintro ⟨h1, h2, h3, h4⟩
      simp [martisTexChain, h1, h2, h3, h4]
  · intro h1 h2 h3 h4
    simp [martisTexChain, h1, h2, h3, h4]
  · intro h1
    simp only [planeTexChain, h1, Bool.not_true, if_false, Bool.false_eq_true]
    split_ifs <;> simp
  · intro h1 h2
    simp only [planeTexChain, h1, h2, Bool.not_true, if_false,
      Bool.false_eq_true]
    split_ifs <;> simp
  · intro h1 h2 h3
    simp [planeTexChain, h1, h2, h3]
  · by_cases h1 : hrFailed (texAttemptHr w kPlaneTex .JPG) = true <;>
      by_cases h2 : hrFailed (texAttemptHr w kPlaneTex .PNG) = true <;>
      by_cases h3 : hrFailed (texAttemptHr w kDefaultTex .DDS) = true <;>
      simp_all [planeTexChain]

/-- Witness for C3 in the all-missing world: every attempt fails with
`E_FAIL` (PNG decode failure) or `E_FAIL` (DDS load failure), the chain
performs all four attempts in order and only then logs. -/
theorem textureFallbackChains_witness :
    (hrFailed (texAttemptHr texWorldAllFail kMartisTexPrimary .PNG) = true ∧
        hrFailed (texAttemptHr texWorldAllFail kMartisTexAlt .PNG) = true ∧
        hrFailed (texAttemptHr texWorldAllFail kDefaultTex .DDS) = true ∧
        hrFailed (texAttemptHr texWorldAllFail kDefaultTex .PNG) = true) ∧
      (martisTexChain texWorldAllFail).1 =
        [.texAttempt kMartisTexPrimary .PNG E_FAIL,
          .texAttempt kMartisTexAlt .PNG E_FAIL,
          .texAttempt kDefaultTex .DDS E_FAIL,
          .texAttempt kDefaultTex .PNG E_FAIL,
          .logNoDiffuseTexture] :=
  ⟨⟨rfl, rfl, rfl, rfl⟩,
    (((((textureFallbackChains texWorldAllFail).2).2).2).2).1 rfl rfl rfl rfl⟩

/-- `getElement` at the literal index string `"1"`: the first element. -/
lemma getElement_one {α : Type} [Inhabited α] (xs : List α) :
    getElement xs ['1'] = xs.getD 0 default := rfl

/-- `getElement` at the literal index string `"2"`: the second element. -/
lemma getElement_two {α : Type} [Inhabited α] (xs : List α) :
    getElement xs ['2'] = xs.getD 1 default := rfl

/-- `getElement` at the literal index string `"3"`: the third element. -/
lemma getElement_three {α : Type} [Inhabited α] (xs : List α) :
    getElement xs ['3'] = xs.getD 2 default := rfl

/-- C6.  Parsing the face line `f 1/1/1 2/2/2 3/3/3` produces exactly the
three vertices referenced (position, UV and normal each looked up OBJ
1-based) with the `noNormal` flag false — the normal-synthesis branch is
not taken — and triangulating them yields the relative indices
`[0, 1, 2]`; parsing `f 1 2 3` (positions only) raises `noNormal` and
assigns every produced vertex the normal
`CrossV3(P0 - P1, P2 - P1)` computed from the first three referenced
positions, with zero texture coordinates. -/
theorem objFaceLineParsing (positions : List Vector3) (tcoords : List Vector2)
    (normals : List Vector3) :
    (GenVerticesFromRawOBJ positions tcoords normals
        ("f 1/1/1 2/2/2 3/3/3".toList) =
      ([{ Position := positions.getD 0 default,
          Normal := normals.getD 0 default,
          TextureCoordinate := tcoords.getD 0 default },
        { Position := positions.getD 1 default,
          Normal := normals.getD 1 default,
          TextureCoordinate := tcoords.getD 1 default },
        { Position := positions.getD 2 default,
          Normal := normals.getD 2 default,
          TextureCoordinate := tcoords.getD 2 default }], false) ∧
      VertexTriangluation
        (GenVerticesFromRawOBJ positions tcoords normals
          ("f 1/1/1 2/2/2 3/3/3".toList)).1 = [0, 1, 2]) ∧
    GenVerticesFromRawOBJ positions tcoords normals ("f 1 2 3".toList) =
      ([{ Position := positions.getD 0 default,
          Normal := CrossV3
            (v3sub (positions.getD 0 default) (positions.getD 1 default))
            (v3sub (positions.getD 2 default) (positions.getD 1 default)),
          TextureCoordinate := ⟨0, 0⟩ },
        { Position := positions.getD 1 default,
          Normal := CrossV3
            (v3sub (positions.getD 0 default) (positions.getD 1 default))
            (v3sub (positions.getD 2 default) (positions.getD 1 default)),
          TextureCoordinate := ⟨0, 0⟩ },
        { Position := positions.getD 2 default,
          Normal := CrossV3
            (v3sub (positions.getD 0 default) (positions.getD 1 default))
            (v3sub (positions.getD 2 default) (positions.getD 1 default)),
          TextureCoordinate := ⟨0, 0⟩ }], true) := by
  have hsA : splitStr
      (tailStr ['f', ' ', '1', '/', '1', '/', '1', ' ', '2', '/', '2', '/',
        '2', ' ', '3', '/', '3', '/', '3']) [' '] =
      [['1', '/', '1', '/', '1'], ['2', '/', '2', '/', '2'],
        ['3', '/', '3', '/', '3']] := by rfl
  have hsB : splitStr (tailStr ['f', ' ', '1', ' ', '2', ' ', '3']) [' '] =
      [['1'], ['2'], ['3']] := by rfl
  have h1 : splitStr ['1', '/', '1', '/', '1'] ['/'] = [['1'], ['1'], ['1']] := by
    rfl
  have h2 : splitStr ['2', '/', '2', '/', '2'] ['/'] = [['2'], ['2'], ['2']] := by
    rfl
  have h3 : splitStr ['3', '/', '3', '/', '3'] ['/'] = [['3'], ['3'], ['3']] := by
    rfl
  have h1s : splitStr ['1'] ['/'] = [['1']] := by rfl
  have h2s : splitStr ['2'] ['/'] = [['2']] := by rfl
  have h3s : splitStr ['3'] ['/'] = [['3']] := by rfl
  have hA : GenVerticesFromRawOBJ positions tcoords normals
      ("f 1/1/1 2/2/2 3/3/3".toList) =
      ([{ Position := positions.getD 0 default,
          Normal := normals.getD 0 default,
          TextureCoordinate := tcoords.getD 0 default },
        { Position := positions.getD 1 default,
          Normal := normals.getD 1 default,
          TextureCoordinate := tcoords.getD 1 default },
        { Position := positions.getD 2 default,
          Normal := normals.getD 2 default,
          TextureCoordinate := tcoords.getD 2 default }], false) := by
    simp [GenVerticesFromRawOBJ, hsA, genVertexStep, h1, h2, h3,
      getElement_one, getElement_two, getElement_three]
  refine ⟨⟨hA, ?_⟩, ?_⟩
  · rw [hA]
    rfl
  · simp [GenVerticesFromRawOBJ, hsB, genVertexStep, h1s, h2s, h3s,
      getElement_one, getElement_two, getElement_three]

/-! ### Dead interior-angle test -/

/-- The source's ear rejection `angle <= 0 && angle >= 180` never fires:
no value satisfies both comparisons. -/
lemma angleRejects_always_false (a : ℚ) : angleRejects a = false := by
  unfold angleRejects
  by_cases h : a ≤ 0
  · simp [h, show ¬(180 ≤ a) from by linarith]
  · simp [h]

/-- The same, over the reals (the float computation `acosf * 180/π` lands
in a real interval; NaN compares false on both sides as well). -/
lemma no_real_is_nonpositive_and_geq_180 (a : ℝ) : ¬(a ≤ 0 ∧ 180 ≤ a) :=
  fun ⟨h1, h2⟩ => by linarith

/-! ### Planar geometry lemmas for the ear tests -/

/-- For points of the plane `Z = 0`, the `SameSide` dot product of cross
products factors into the product of two signed areas. -/
lemma planar_sameSide_dot (a b p q : Vector3) (ha : a.Z = 0) (hb : b.Z = 0)
    (hp : p.Z = 0) (hq : q.Z = 0) :
    DotV3 (CrossV3 (v3sub b a) (v3sub p a)) (CrossV3 (v3sub b a) (v3sub q a)) =
      tri2 a b p * tri2 a b q := by
  obtain ⟨a1, a2, a3⟩ := a
  obtain ⟨b1, b2, b3⟩ := b
  obtain ⟨p1, p2, p3⟩ := p
  obtain ⟨q1, q2, q3⟩ := q
  simp only at ha hb hp hq
  subst ha hb hp hq
  unfold DotV3 CrossV3 v3sub tri2
  ring

/-- A strictly negative `SameSide` dot product makes `SameSide` false. -/
lemma sameSide_eq_false {p1 p2 a b : Vector3}
    (h : DotV3 (CrossV3 (v3sub b a) (v3sub p1 a))
        (CrossV3 (v3sub b a) (v3sub p2 a)) < 0) :
    SameSide p1 p2 a b = false := by
  unfold SameSide
  exact decide_eq_false (not_le.mpr h)

/-- `inTriangle` is false as soon as its second `SameSide` test fails. -/
lemma inTriangle_eq_false_mid {point t1 t2 t3 : Vector3}
    (h : SameSide point t2 t1 t3 = false) :
    inTriangle point t1 t2 t3 = false := by
  simp [inTriangle, h]

/-- `inTriangle` is false as soon as its third `SameSide` test fails. -/
lemma inTriangle_eq_false_last {point t1 t2 t3 : Vector3}
    (h : SameSide point t3 t1 t2 = false) :
    inTriangle point t1 t2 t3 = false := by
  simp [inTriangle, h]

/-- Planar form: the line through `t1` and `t3` strictly separates `point`
from `t2`, so the middle `SameSide` test (and hence `inTriangle`) fails. -/
lemma inTriangle_false_sep13 {point t1 t2 t3 : Vector3} (hp : point.Z = 0)
    (h1 : t1.Z = 0) (h2 : t2.Z = 0) (h3 : t3.Z = 0)
    (h : tri2 t1 t3 point * tri2 t1 t3 t2 < 0) :
    inTriangle point t1 t2 t3 = false :=
  inTriangle_eq_false_mid
    (sameSide_eq_false (by rw [planar_sameSide_dot t1 t3 point t2 h1 h3 hp h2]; exact h))

/-- Planar form: the line through `t1` and `t2` strictly separates `point`
from `t3`, so the last `SameSide` test (and hence `inTriangle`) fails. -/
lemma inTriangle_false_sep12 {point t1 t2 t3 : Vector3} (hp : point.Z = 0)
    (h1 : t1.Z = 0) (h2 : t2.Z = 0) (h3 : t3.Z = 0)
    (h : tri2 t1 t2 point * tri2 t1 t2 t3 < 0) :
    inTriangle point t1 t2 t3 = false :=
  inTriangle_eq_false_last
    (sameSide_eq_false (by rw [planar_sameSide_dot t1 t2 point t3 h1 h2 hp h3]; exact h))

/-- Two quantities with the same strict sign `s` have positive product. -/
lemma pos_of_sign {s x y : ℚ} (hx : 0 < s * x) (hy : 0 < s * y) :
    0 < x * y := by
  nlinarith [mul_pos hx hy, sq_nonneg s]

/-- A strictly signed triangle has pairwise distinct corners. -/
lemma tri2_pos_distinct {s : ℚ} {p q r : Vector3} (h : 0 < s * tri2 p q r) :
    p ≠ q ∧ p ≠ r ∧ q ≠ r := by
  refine ⟨fun he => ?_, fun he => ?_, fun he => ?_⟩ <;> rw [he] at h
  · rw [show tri2 q q r = 0 from by unfold tri2; ring, mul_zero] at h
    exact lt_irrefl 0 h
  · rw [show tri2 r q r = 0 from by unfold tri2; ring, mul_zero] at h
    exact lt_irrefl 0 h
  · rw [show tri2 p r r = 0 from by unfold tri2; ring, mul_zero] at h
    exact lt_irrefl 0 h

/-! ### Unfolding lemmas for the clipping loop -/

/-- Three working vertices: the loop emits the last triangle and stops. -/
lemma triClipLoop_len3 (fuel : ℕ) (iVerts tVerts : List Vertex)
    (acc : List ℕ) (h : tVerts.length = 3) :
    triClipLoop (fuel + 1) iVerts tVerts acc =
      acc ++ emitScan iVerts 3 (earCur tVerts 0) (earPrev tVerts 0)
        (earNext tVerts 0) := by
  unfold triClipLoop
  rw [if_pos h]

/-- Four working vertices: the loop emits two triangles and stops. -/
lemma triClipLoop_len4 (fuel : ℕ) (iVerts tVerts : List Vertex)
    (acc : List ℕ) (h : tVerts.length = 4) :
    triClipLoop (fuel + 1) iVerts tVerts acc =
      acc ++
        emitScan iVerts iVerts.length (earCur tVerts 0) (earPrev tVerts 0)
          (earNext tVerts 0) ++
        emitScan iVerts iVerts.length (earPrev tVerts 0) (earNext tVerts 0)
          (findTempVec tVerts (earCur tVerts 0) (earPrev tVerts 0)
            (earNext tVerts 0)) := by
  unfold triClipLoop
  rw [if_neg (by omega), if_pos h]

/-- Five or more working vertices with a found ear: clip it and recurse. -/
lemma triClipLoop_ear (fuel : ℕ) (iVerts tVerts : List Vertex) (acc : List ℕ)
    (i : ℕ) (h3 : tVerts.length ≠ 3) (h4 : tVerts.length ≠ 4)
    (hf : findEar iVerts tVerts = some i) :
    triClipLoop (fuel + 1) iVerts tVerts acc =
      triClipLoop fuel iVerts (eraseFirstByPos tVerts (earCur tVerts i))
        (acc ++ emitScan iVerts iVerts.length (earCur tVerts i)
          (earPrev tVerts i) (earNext tVerts i)) := by
  conv_lhs => unfold triClipLoop
  rw [if_neg h3, if_neg h4, hf]

/-- Symbolic run of the quad case: for four pairwise-distinct positions
the four-vertex branch emits `[0, 1, 3]` and `[1, 2, 3]`, independently of
any geometry. -/
lemma vertexTriangluation_quad (v0 v1 v2 v3 : Vertex)
    (d01 : v0.Position ≠ v1.Position) (d02 : v0.Position ≠ v2.Position)
    (d03 : v0.Position ≠ v3.Position) (d12 : v1.Position ≠ v2.Position)
    (d13 : v1.Position ≠ v3.Position) (d23 : v2.Position ≠ v3.Position) :
    VertexTriangluation [v0, v1, v2, v3] = [0, 1, 3, 1, 2, 3] := by
  have h0 : VertexTriangluation [v0, v1, v2, v3] =
      triClipLoop 4 [v0, v1, v2, v3] [v0, v1, v2, v3] [] := by
    simp [VertexTriangluation]
  rw [h0, show (4 : ℕ) = 3 + 1 from rfl,
    triClipLoop_len4 3 _ _ _ (by simp)]
  have hr : List.range 4 = [0, 1, 2, 3] := by rfl
  simp [emitScan, findTempVec, earPrev, earCur, earNext, hr, List.find?,
    d01, d02, d03, d12, d13, d23, Ne.symm d01, Ne.symm d02, Ne.symm d03,
    Ne.symm d12, Ne.symm d13, Ne.symm d23]

/-- Symbolic run of the pentagon case: the first vertex is clipped as an
ear (no other vertex lies in the triangle `(P4, P0, P1)` of a strictly
convex polygon), then the four-vertex branch finishes:
`[0,1,4] [1,2,4] [2,3,4]`. -/
lemma vertexTriangluation_pent (s : ℚ) (v0 v1 v2 v3 v4 : Vertex)
    (hz0 : v0.Position.Z = 0) (hz1 : v1.Position.Z = 0)
    (hz2 : v2.Position.Z = 0) (hz3 : v3.Position.Z = 0)
    (hz4 : v4.Position.Z = 0)
    (hconv : convexSign s [v0.Position, v1.Position, v2.Position,
      v3.Position, v4.Position]) :
    VertexTriangluation [v0, v1, v2, v3, v4] =
      [0, 1, 4, 1, 2, 4, 2, 3, 4] := by
  have t012 : 0 < s * tri2 v0.Position v1.Position v2.Position := by
    simpa using hconv 2 (by simp) 1 (by omega) 0 (by omega)
  have t014 : 0 < s * tri2 v0.Position v1.Position v4.Position := by
    simpa using hconv 4 (by simp) 1 (by omega) 0 (by omega)
  have t034 : 0 < s * tri2 v0.Position v3.Position v4.Position := by
    simpa using hconv 4 (by simp) 3 (by omega) 0 (by omega)
  have t124 : 0 < s * tri2 v1.Position v2.Position v4.Position := by
    simpa using hconv 4 (by simp) 2 (by omega) 1 (by omega)
  have t134 : 0 < s * tri2 v1.Position v3.Position v4.Position := by
    simpa using hconv 4 (by simp) 3 (by omega) 1 (by omega)
  have t234 : 0 < s * tri2 v2.Position v3.Position v4.Position := by
    simpa using hconv 4 (by simp) 3 (by omega) 2 (by omega)
  obtain ⟨d01, d02, d12⟩ := tri2_pos_distinct t012
  obtain ⟨d03, d04, d34⟩ := tri2_pos_distinct t034
  obtain ⟨-, -, d14⟩ := tri2_pos_distinct t014
  obtain ⟨d13, -, -⟩ := tri2_pos_distinct t134
  obtain ⟨d23, d24, -⟩ := tri2_pos_distinct t234
  have hin2 : inTriangle v2.Position v4.Position v0.Position v1.Position =
      false := by
    apply inTriangle_false_sep13 hz2 hz4 hz0 hz1
    rw [show tri2 v4.Position v1.Position v2.Position =
        tri2 v1.Position v2.Position v4.Position from by unfold tri2; ring,
      show tri2 v4.Position v1.Position v0.Position =
        -tri2 v0.Position v1.Position v4.Position from by unfold tri2; ring,
      mul_neg]
    have := pos_of_sign t124 t014
    linarith
  have hin3 : inTriangle v3.Position v4.Position v0.Position v1.Position =
      false := by
    apply inTriangle_false_sep13 hz3 hz4 hz0 hz1
    rw [show tri2 v4.Position v1.Position v3.Position =
        tri2 v1.Position v3.Position v4.Position from by unfold tri2; ring,
      show tri2 v4.Position v1.Position v0.Position =
        -tri2 v0.Position v1.Position v4.Position from by unfold tri2; ring,
      mul_neg]
    have := pos_of_sign t134 t014
    linarith
  have hfe : findEar [v0, v1, v2, v3, v4] [v0, v1, v2, v3, v4] = some 0 := by
    unfold findEar
    simp [List.find?, anyInTri, earPrev, earCur, earNext, hin2, hin3]
  have h0 : VertexTriangluation [v0, v1, v2, v3, v4] =
      triClipLoop 5 [v0, v1, v2, v3, v4] [v0, v1, v2, v3, v4] [] := by
    simp [VertexTriangluation]
  rw [h0, show (5 : ℕ) = 4 + 1 from rfl,
    triClipLoop_ear 4 _ _ _ 0 (by simp) (by simp) hfe]
  have herase : eraseFirstByPos [v0, v1, v2, v3, v4]
      (earCur [v0, v1, v2, v3, v4] 0) = [v1, v2, v3, v4] := by
    simp [eraseFirstByPos, earCur]
  rw [herase, show (4 : ℕ) = 3 + 1 from rfl,
    triClipLoop_len4 3 _ _ _ (by simp)]
  simp [emitScan, findTempVec, earPrev, earCur, earNext,
    show List.range 5 = [0, 1, 2, 3, 4] from rfl, List.find?,
    d01, d02, d03, d04, d12, d13, d14, d23, d24, d34,
    Ne.symm d01, Ne.symm d02, Ne.symm d03, Ne.symm d04, Ne.symm d12,
    Ne.symm d13, Ne.symm d14, Ne.symm d23, Ne.symm d24, Ne.symm d34]

/-- Symbolic run of the hexagon case: two ears are clipped (`v0`, then
`v1`), then the four-vertex branch finishes:
`[0,1,5] [1,2,5] [2,3,5] [3,4,5]`. -/
lemma vertexTriangluation_hex (s : ℚ) (v0 v1 v2 v3 v4 v5 : Vertex)
    (hz0 : v0.Position.Z = 0) (hz1 : v1.Position.Z = 0)
    (hz2 : v2.Position.Z = 0) (hz3 : v3.Position.Z = 0)
    (hz4 : v4.Position.Z = 0) (hz5 : v5.Position.Z = 0)
    (hconv : convexSign s [v0.Position, v1.Position, v2.Position,
      v3.Position, v4.Position, v5.Position]) :
    VertexTriangluation [v0, v1, v2, v3, v4, v5] =
      [0, 1, 5, 1, 2, 5, 2, 3, 5, 3, 4, 5] := by
  have t012 : 0 < s * tri2 v0.Position v1.Position v2.Position := by
    simpa using hconv 2 (by simp) 1 (by omega) 0 (by omega)
  have t034 : 0 < s * tri2 v0.Position v3.Position v4.Position := by
    simpa using hconv 4 (by simp) 3 (by omega) 0 (by omega)
  have t015 : 0 < s * tri2 v0.Position v1.Position v5.Position := by
    simpa using hconv 5 (by simp) 1 (by omega) 0 (by omega)
  have t135 : 0 < s * tri2 v1.Position v3.Position v5.Position := by
    simpa using hconv 5 (by simp) 3 (by omega) 1 (by omega)
  have t234 : 0 < s * tri2 v2.Position v3.Position v4.Position := by
    simpa using hconv 4 (by simp) 3 (by omega) 2 (by omega)
  have t124 : 0 < s * tri2 v1.Position v2.Position v4.Position := by
    simpa using hconv 4 (by simp) 2 (by omega) 1 (by omega)
  have t245 : 0 < s * tri2 v2.Position v4.Position v5.Position := by
    simpa using hconv 5 (by simp) 4 (by omega) 2 (by omega)
  have t125 : 0 < s * tri2 v1.Position v2.Position v5.Position := by
    simpa using hconv 5 (by simp) 2 (by omega) 1 (by omega)
  have t145 : 0 < s * tri2 v1.Position v4.Position v5.Position := by
    simpa using hconv 5 (by simp) 4 (by omega) 1 (by omega)
  have t235 : 0 < s * tri2 v2.Position v3.Position v5.Position := by
    simpa using hconv 5 (by simp) 3 (by omega) 2 (by omega)
  have t345 : 0 < s * tri2 v3.Position v4.Position v5.Position := by
    simpa using hconv 5 (by simp) 4 (by omega) 3 (by omega)
  obtain ⟨d01, d02, d12⟩ := tri2_pos_distinct t012
  obtain ⟨d03, d04, d34⟩ := tri2_pos_distinct t034
  obtain ⟨-, d05, d15⟩ := tri2_pos_distinct t015
  obtain ⟨d13, -, d35⟩ := tri2_pos_distinct t135
  obtain ⟨d23, d24, -⟩ := tri2_pos_distinct t234
  obtain ⟨-, d14, -⟩ := tri2_pos_distinct t124
  obtain ⟨-, d25, d45⟩ := tri2_pos_distinct t245
  -- first ear (prev v5, cur v0, next v1): v2, v3, v4 are outside
  have hin2a : inTriangle v2.Position v5.Position v0.Position v1.Position =
      false := by
    apply inTriangle_false_sep13 hz2 hz5 hz0 hz1
    rw [show tri2 v5.Position v1.Position v2.Position =
        tri2 v1.Position v2.Position v5.Position from by unfold tri2; ring,
      show tri2 v5.Position v1.Position v0.Position =
        -tri2 v0.Position v1.Position v5.Position from by unfold tri2; ring,
      mul_neg]
    have := pos_of_sign t125 t015
    linarith
  have hin3a : inTriangle v3.Position v5.Position v0.Position v1.Position =
      false := by
    apply inTriangle_false_sep13 hz3 hz5 hz0 hz1
    rw [show tri2 v5.Position v1.Position v3.Position =
        tri2 v1.Position v3.Position v5.Position from by unfold tri2; ring,
      show tri2 v5.Position v1.Position v0.Position =
        -tri2 v0.Position v1.Position v5.Position from by unfold tri2; ring,
      mul_neg]
    have := pos_of_sign t135 t015
    linarith
  have hin4a : inTriangle v4.Position v5.Position v0.Position v1.Position =
      false := by
    apply inTriangle_false_sep13 hz4 hz5 hz0 hz1
    rw [show tri2 v5.Position v1.Position v4.Position =
        tri2 v1.Position v4.Position v5.Position from by unfold tri2; ring,
      show tri2 v5.Position v1.Position v0.Position =
        -tri2 v0.Position v1.Position v5.Position from by unfold tri2; ring,
      mul_neg]
    have := pos_of_sign t145 t015
    linarith
  -- second ear (prev v5, cur v1, next v2): v0, v3, v4 are outside
  have hin0b : inTriangle v0.Position v5.Position v1.Position v2.Position =
      false := by
    apply inTriangle_false_sep12 hz0 hz5 hz1 hz2
    rw [show tri2 v5.Position v1.Position v0.Position =
        -tri2 v0.Position v1.Position v5.Position from by unfold tri2; ring,
      show tri2 v5.Position v1.Position v2.Position =
        tri2 v1.Position v2.Position v5.Position from by unfold tri2; ring,
      neg_mul]
    have := pos_of_sign t015 t125
    linarith
  have hin3b : inTriangle v3.Position v5.Position v1.Position v2.Position =
      false := by
    apply inTriangle_false_sep13 hz3 hz5 hz1 hz2
    rw [show tri2 v5.Position v2.Position v3.Position =
        tri2 v2.Position v3.Position v5.Position from by unfold tri2; ring,
      show tri2 v5.Position v2.Position v1.Position =
        -tri2 v1.Position v2.Position v5.Position from by unfold tri2; ring,
      mul_neg]
    have := pos_of_sign t235 t125
    linarith
  have hin4b : inTriangle v4.Position v5.Position v1.Position v2.Position =
      false := by
    apply inTriangle_false_sep13 hz4 hz5 hz1 hz2
    rw [show tri2 v5.Position v2.Position v4.Position =
        tri2 v2.Position v4.Position v5.Position from by unfold tri2; ring,
      show tri2 v5.Position v2.Position v1.Position =
        -tri2 v1.Position v2.Position v5.Position from by unfold tri2; ring,
      mul_neg]
    have := pos_of_sign t245 t125
    linarith
  have hfe1 : findEar [v0, v1, v2, v3, v4, v5] [v0, v1, v2, v3, v4, v5] =
      some 0 := by
    unfold findEar
    simp [List.find?, anyInTri, earPrev, earCur, earNext, hin2a, hin3a, hin4a]
  have hfe2 : findEar [v0, v1, v2, v3, v4, v5] [v1, v2, v3, v4, v5] =
      some 0 := by
    unfold findEar
    simp [List.find?, anyInTri, earPrev, earCur, earNext, hin0b, hin3b, hin4b]
  have h0 : VertexTriangluation [v0, v1, v2, v3, v4, v5] =
      triClipLoop 6 [v0, v1, v2, v3, v4, v5] [v0, v1, v2, v3, v4, v5] [] := by
    simp [VertexTriangluation]
  rw [h0, show (6 : ℕ) = 5 + 1 from rfl,
    triClipLoop_ear 5 _ _ _ 0 (by simp) (by simp) hfe1]
  have herase1 : eraseFirstByPos [v0, v1, v2, v3, v4, v5]
      (earCur [v0, v1, v2, v3, v4, v5] 0) = [v1, v2, v3, v4, v5] := by
    simp [eraseFirstByPos, earCur]
  rw [herase1, show (5 : ℕ) = 4 + 1 from rfl,
    triClipLoop_ear 4 _ _ _ 0 (by simp) (by simp) hfe2]
  have herase2 : eraseFirstByPos [v1, v2, v3, v4, v5]
      (earCur [v1, v2, v3, v4, v5] 0) = [v2, v3, v4, v5] := by
    simp [eraseFirstByPos, earCur]
  rw [herase2, show (4 : ℕ) = 3 + 1 from rfl,
    triClipLoop_len4 3 _ _ _ (by simp)]
  simp [emitScan, findTempVec, earPrev, earCur, earNext,
    show List.range 6 = [0, 1, 2, 3, 4, 5] from rfl, List.find?,
    d01, d02, d03, d04, d05, d12, d13, d14, d15, d23, d24, d25, d34, d35,
    d45, Ne.symm d01, Ne.symm d02, Ne.symm d03, Ne.symm d04, Ne.symm d05,
    Ne.symm d12, Ne.symm d13, Ne.symm d14, Ne.symm d15, Ne.symm d23,
    Ne.symm d24, Ne.symm d25, Ne.symm d34, Ne.symm d35, Ne.symm d45]

/-- C4.  For every strictly convex N-gon (N = 4, 5, 6) in the plane
`Z = 0` with orientation sign `s` (all index-ordered vertex triples of
signed-area sign `s`; the vertices are pairwise distinct, which follows
from strict convexity), `VertexTriangluation` produces exactly `3*(N-2)`
output indices (`N-2` triangles), every input vertex index appears in the
output, and every emitted triangle has signed area of the same sign `s` as
the input polygon — its winding matches the polygon's.  The exact outputs
are `[0,1,3, 1,2,3]`, `[0,1,4, 1,2,4, 2,3,4]` and
`[0,1,5, 1,2,5, 2,3,5, 3,4,5]`. -/
theorem convex_ngon_ear_clipping :
    (∀ (s : ℚ) (v0 v1 v2 v3 : Vertex), v0.Position.Z = 0 →
      v1.Position.Z = 0 → v2.Position.Z = 0 → v3.Position.Z = 0 →
      convexSign s [v0.Position, v1.Position, v2.Position, v3.Position] →
      VertexTriangluation [v0, v1, v2, v3] = [0, 1, 3, 1, 2, 3] ∧
        (VertexTriangluation [v0, v1, v2, v3]).length = 3 * (4 - 2) ∧
        (∀ m < 4, m ∈ VertexTriangluation [v0, v1, v2, v3]) ∧
        0 < s * tri2 v0.Position v1.Position v3.Position ∧
        0 < s * tri2 v1.Position v2.Position v3.Position) ∧
    (∀ (s : ℚ) (v0 v1 v2 v3 v4 : Vertex), v0.Position.Z = 0 →
      v1.Position.Z = 0 → v2.Position.Z = 0 → v3.Position.Z = 0 →
      v4.Position.Z = 0 →
      convexSign s [v0.Position, v1.Position, v2.Position, v3.Position,
        v4.Position] →
      VertexTriangluation [v0, v1, v2, v3, v4] = [0, 1, 4, 1, 2, 4, 2, 3, 4] ∧
        (VertexTriangluation [v0, v1, v2, v3, v4]).length = 3 * (5 - 2) ∧
        (∀ m < 5, m ∈ VertexTriangluation [v0, v1, v2, v3, v4]) ∧
        0 < s * tri2 v0.Position v1.Position v4.Position ∧
        0 < s * tri2 v1.Position v2.Position v4.Position ∧
        0 < s * tri2 v2.Position v3.Position v4.Position) ∧
    (∀ (s : ℚ) (v0 v1 v2 v3 v4 v5 : Vertex), v0.Position.Z = 0 →
      v1.Position.Z = 0 → v2.Position.Z = 0 → v3.Position.Z = 0 →
      v4.Position.Z = 0 → v5.Position.Z = 0 →
      convexSign s [v0.Position, v1.Position, v2.Position, v3.Position,
        v4.Position, v5.Position] →
      VertexTriangluation [v0, v1, v2, v3, v4, v5] =
          [0, 1, 5, 1, 2, 5, 2, 3, 5, 3, 4, 5] ∧
        (VertexTriangluation [v0, v1, v2, v3, v4, v5]).length = 3 * (6 - 2) ∧
        (∀ m < 6, m ∈ VertexTriangluation [v0, v1, v2, v3, v4, v5]) ∧
        0 < s * tri2 v0.Position v1.Position v5.Position ∧
        0 < s * tri2 v1.Position v2.Position v5.Position ∧
        0 < s * tri2 v2.Position v3.Position v5.Position ∧
        0 < s * tri2 v3.Position v4.Position v5.Position) := by
  refine ⟨?_, ?_, ?_⟩
  · intro s v0 v1 v2 v3 hz0 hz1 hz2 hz3 hconv
    have t012 : 0 < s * tri2 v0.Position v1.Position v2.Position := by
      simpa using hconv 2 (by simp) 1 (by omega) 0 (by omega)
    have t013 : 0 < s * tri2 v0.Position v1.Position v3.Position := by
      simpa using hconv 3 (by simp) 1 (by omega) 0 (by omega)
    have t023 : 0 < s * tri2 v0.Position v2.Position v3.Position := by
      simpa using hconv 3 (by simp) 2 (by omega) 0 (by omega)
    have t123 : 0 < s * tri2 v1.Position v2.Position v3.Position := by
      simpa using hconv 3 (by simp) 2 (by omega) 1 (by omega)
    obtain ⟨d01, d02, d12⟩ := tri2_pos_distinct t012
    obtain ⟨-, d03, d13⟩ := tri2_pos_distinct t013
    obtain ⟨-, -, d23⟩ := tri2_pos_distinct t023
    have hq := vertexTriangluation_quad v0 v1 v2 v3 d01 d02 d03 d12 d13 d23
    refine ⟨hq, ?_, ?_, t013, t123⟩
    · rw [hq]; rfl
    · rw [hq]; decide
  · intro s v0 v1 v2 v3 v4 hz0 hz1 hz2 hz3 hz4 hconv
    have hp := vertexTriangluation_pent s v0 v1 v2 v3 v4 hz0 hz1 hz2 hz3 hz4
      hconv
    have t014 : 0 < s * tri2 v0.Position v1.Position v4.Position := by
      simpa using hconv 4 (by simp) 1 (by omega) 0 (by omega)
    have t124 : 0 < s * tri2 v1.Position v2.Position v4.Position := by
      simpa using hconv 4 (by simp) 2 (by omega) 1 (by omega)
    have t234 : 0 < s * tri2 v2.Position v3.Position v4.Position := by
      simpa using hconv 4 (by simp) 3 (by omega) 2 (by omega)
    refine ⟨hp, ?_, ?_, t014, t124, t234⟩
    · rw [hp]; rfl
    · rw [hp]; decide
  · intro s v0 v1 v2 v3 v4 v5 hz0 hz1 hz2 hz3 hz4 hz5 hconv
    have hh := vertexTriangluation_hex s v0 v1 v2 v3 v4 v5 hz0 hz1 hz2 hz3
      hz4 hz5 hconv
    have t015 : 0 < s * tri2 v0.Position v1.Position v5.Position := by
      simpa using hconv 5 (by simp) 1 (by omega) 0 (by omega)
    have t125 : 0 < s * tri2 v1.Position v2.Position v5.Position := by
      simpa using hconv 5 (by simp) 2 (by omega) 1 (by omega)
    have t235 : 0 < s * tri2 v2.Position v3.Position v5.Position := by
      simpa using hconv 5 (by simp) 3 (by omega) 2 (by omega)
    have t345 : 0 < s * tri2 v3.Position v4.Position v5.Position := by
      simpa using hconv 5 (by simp) 4 (by omega) 3 (by omega)
    refine ⟨hh, ?_, ?_, t015, t125, t235, t345⟩
    · rw [hh]; rfl
    · rw [hh]; decide

/-- Witness for C4 on a concrete convex quadrilateral, pentagon and
hexagon (counter-clockwise, `s = 1`). -/
theorem convex_ngon_ear_clipping_witness :
    (convexSign 1 [⟨0, 0, 0⟩, ⟨1, 0, 0⟩, ⟨1, 1, 0⟩, ⟨0, 1, 0⟩] ∧
        convexSign 1 [⟨0, 0, 0⟩, ⟨2, 0, 0⟩, ⟨3, 2, 0⟩, ⟨1, 4, 0⟩, ⟨-1, 2, 0⟩] ∧
        convexSign 1 [⟨0, 0, 0⟩, ⟨2, 0, 0⟩, ⟨3, 2, 0⟩, ⟨2, 4, 0⟩, ⟨0, 4, 0⟩,
          ⟨-1, 2, 0⟩]) ∧
      VertexTriangluation
          [⟨⟨0, 0, 0⟩, default, default⟩, ⟨⟨1, 0, 0⟩, default, default⟩,
            ⟨⟨1, 1, 0⟩, default, default⟩, ⟨⟨0, 1, 0⟩, default, default⟩] =
        [0, 1, 3, 1, 2, 3] ∧
      VertexTriangluation
          [⟨⟨0, 0, 0⟩, default, default⟩, ⟨⟨2, 0, 0⟩, default, default⟩,
            ⟨⟨3, 2, 0⟩, default, default⟩, ⟨⟨1, 4, 0⟩, default, default⟩,
            ⟨⟨-1, 2, 0⟩, default, default⟩] =
        [0, 1, 4, 1, 2, 4, 2, 3, 4] ∧
      VertexTriangluation
          [⟨⟨0, 0, 0⟩, default, default⟩, ⟨⟨2, 0, 0⟩, default, default⟩,
            ⟨⟨3, 2, 0⟩, default, default⟩, ⟨⟨2, 4, 0⟩, default, default⟩,
            ⟨⟨0, 4, 0⟩, default, default⟩, ⟨⟨-1, 2, 0⟩, default, default⟩] =
        [0, 1, 5, 1, 2, 5, 2, 3, 5, 3, 4, 5] := by
  have hq : convexSign 1 [⟨0, 0, 0⟩, ⟨1, 0, 0⟩, ⟨1, 1, 0⟩, ⟨0, 1, 0⟩] := by
    intro k hk j hj i hi
    simp only [List.length_cons, List.length_nil] at hk
    interval_cases k <;> interval_cases j <;> interval_cases i <;>
      norm_num [tri2]
  have hp : convexSign 1
      [⟨0, 0, 0⟩, ⟨2, 0, 0⟩, ⟨3, 2, 0⟩, ⟨1, 4, 0⟩, ⟨-1, 2, 0⟩] := by
    intro k hk j hj i hi
    simp only [List.length_cons, List.length_nil] at hk
    interval_cases k <;> interval_cases j <;> interval_cases i <;>
      norm_num [tri2]
  have hh : convexSign 1 [⟨0, 0, 0⟩, ⟨2, 0, 0⟩, ⟨3, 2, 0⟩, ⟨2, 4, 0⟩,
      ⟨0, 4, 0⟩, ⟨-1, 2, 0⟩] := by
    intro k hk j hj i hi
    simp only [List.length_cons, List.length_nil] at hk
    interval_cases k <;> interval_cases j <;> interval_cases i <;>
      norm_num [tri2]
  refine ⟨⟨hq, hp, hh⟩, ?_, ?_, ?_⟩
  · exact (convex_ngon_ear_clipping.1 1 ⟨⟨0, 0, 0⟩, default, default⟩
      ⟨⟨1, 0, 0⟩, default, default⟩ ⟨⟨1, 1, 0⟩, default, default⟩
      ⟨⟨0, 1, 0⟩, default, default⟩ rfl rfl rfl rfl hq).1
  · exact (convex_ngon_ear_clipping.2.1 1 ⟨⟨0, 0, 0⟩, default, default⟩
      ⟨⟨2, 0, 0⟩, default, default⟩ ⟨⟨3, 2, 0⟩, default, default⟩
      ⟨⟨1, 4, 0⟩, default, default⟩ ⟨⟨-1, 2, 0⟩, default, default⟩
      rfl rfl rfl rfl rfl hp).1
  · exact (convex_ngon_ear_clipping.2.2 1 ⟨⟨0, 0, 0⟩, default, default⟩
      ⟨⟨2, 0, 0⟩, default, default⟩ ⟨⟨3, 2, 0⟩, default, default⟩
      ⟨⟨2, 4, 0⟩, default, default⟩ ⟨⟨0, 4, 0⟩, default, default⟩
      ⟨⟨-1, 2, 0⟩, default, default⟩ rfl rfl rfl rfl rfl rfl hh).1

end SoulpherEngine
